import Mathlib

/-!
Verification development for the i94 immigration ETL pipeline (etl.py).

The pipeline's Spark SQL stages are embedded as list-processing functions:
a table is a list of rows (structures with Option-typed nullable columns),
SQL DISTINCT is List.dedup, joins are flatMap/filter combinations with SQL
null-equality semantics (NULL = x is never true), GROUP BY is key
deduplication followed by per-key aggregation, and DOUBLE columns are
modelled by exact rationals (the type Dbl below).  Calendar dates are
modelled as integer day numbers (days since 1970-01-01), with the civil
calendar fields derived by the standard Gregorian day-count algorithms.
-/

/-! ### Exact rationals for SQL DOUBLE columns

A fraction num / (den + 1), not kept in lowest terms; the quotient by
cross-multiplication equality gives value semantics.  All operations avoid
gcd so that concrete computations reduce inside the kernel. -/

structure PreD where
  num : Int
  den : Nat
deriving DecidableEq

def PreD.denI (a : PreD) : Int := (a.den : Int) + 1

theorem PreD.denI_pos (a : PreD) : 0 < a.denI := by
  have h : (0 : Int) ≤ (a.den : Int) := Int.ofNat_nonneg _
  unfold PreD.denI
  omega

def PreD.r (a b : PreD) : Prop := a.num * b.denI = b.num * a.denI

theorem PreD.r_refl (a : PreD) : PreD.r a a := rfl

theorem PreD.r_symm {a b : PreD} (h : PreD.r a b) : PreD.r b a := h.symm

theorem PreD.r_trans {a b c : PreD} (h1 : PreD.r a b) (h2 : PreD.r b c) :
    PreD.r a c := by
  unfold PreD.r at h1 h2 ⊢
  have hb : b.denI ≠ 0 := ne_of_gt b.denI_pos
  have key : b.denI * (a.num * c.denI) = b.denI * (c.num * a.denI) := by
    linear_combination c.denI * h1 + a.denI * h2
  exact mul_left_cancel₀ hb key

instance preDSetoid : Setoid PreD :=
  ⟨PreD.r, ⟨PreD.r_refl, PreD.r_symm, PreD.r_trans⟩⟩

theorem PreD.equiv_def {a b : PreD} : (a ≈ b) = PreD.r a b := rfl

def Dbl : Type := Quotient preDSetoid

def Dbl.ofInt (n : Int) : Dbl := ⟦⟨n, 0⟩⟧

/-- The rational value n / (dp + 1). -/
def Dbl.mkFrac (n : Int) (dp : Nat) : Dbl := ⟦⟨n, dp⟩⟧

def PreD.add (a b : PreD) : PreD :=
  ⟨a.num * b.denI + b.num * a.denI, a.den * b.den + a.den + b.den⟩

def PreD.sub (a b : PreD) : PreD :=
  ⟨a.num * b.denI - b.num * a.denI, a.den * b.den + a.den + b.den⟩

def PreD.mul (a b : PreD) : PreD :=
  ⟨a.num * b.num, a.den * b.den + a.den + b.den⟩

/-- Division of a fraction by the positive natural number n + 1. -/
def PreD.divS (a : PreD) (n : Nat) : PreD :=
  ⟨a.num, a.den * n + a.den + n⟩

theorem PreD.denI_add (a b : PreD) : (PreD.add a b).denI = a.denI * b.denI := by
  unfold PreD.denI PreD.add
  push_cast
  ring

theorem PreD.denI_sub (a b : PreD) : (PreD.sub a b).denI = a.denI * b.denI := by
  unfold PreD.denI PreD.sub
  push_cast
  ring

theorem PreD.denI_mul (a b : PreD) : (PreD.mul a b).denI = a.denI * b.denI := by
  unfold PreD.denI PreD.mul
  push_cast
  ring

theorem PreD.denI_divS (a : PreD) (n : Nat) :
    (PreD.divS a n).denI = a.denI * ((n : Int) + 1) := by
  unfold PreD.denI PreD.divS
  push_cast
  ring

theorem PreD.add_respects {a1 a2 b1 b2 : PreD} (h1 : a1 ≈ a2) (h2 : b1 ≈ b2) :
    PreD.add a1 b1 ≈ PreD.add a2 b2 := by
  rw [PreD.equiv_def] at h1 h2 ⊢
  unfold PreD.r at h1 h2 ⊢
  show (PreD.add a1 b1).num * (PreD.add a2 b2).denI
      = (PreD.add a2 b2).num * (PreD.add a1 b1).denI
  rw [PreD.denI_add, PreD.denI_add]
  show (a1.num * b1.denI + b1.num * a1.denI) * (a2.denI * b2.denI)
      = (a2.num * b2.denI + b2.num * a2.denI) * (a1.denI * b1.denI)
  linear_combination (b1.denI * b2.denI) * h1 + (a1.denI * a2.denI) * h2

theorem PreD.sub_respects {a1 a2 b1 b2 : PreD} (h1 : a1 ≈ a2) (h2 : b1 ≈ b2) :
    PreD.sub a1 b1 ≈ PreD.sub a2 b2 := by
  rw [PreD.equiv_def] at h1 h2 ⊢
  unfold PreD.r at h1 h2 ⊢
  show (PreD.sub a1 b1).num * (PreD.sub a2 b2).denI
      = (PreD.sub a2 b2).num * (PreD.sub a1 b1).denI
  rw [PreD.denI_sub, PreD.denI_sub]
  show (a1.num * b1.denI - b1.num * a1.denI) * (a2.denI * b2.denI)
      = (a2.num * b2.denI - b2.num * a2.denI) * (a1.denI * b1.denI)
  linear_combination (b1.denI * b2.denI) * h1 - (a1.denI * a2.denI) * h2

theorem PreD.mul_respects {a1 a2 b1 b2 : PreD} (h1 : a1 ≈ a2) (h2 : b1 ≈ b2) :
    PreD.mul a1 b1 ≈ PreD.mul a2 b2 := by
  rw [PreD.equiv_def] at h1 h2 ⊢
  unfold PreD.r at h1 h2 ⊢
  show (PreD.mul a1 b1).num * (PreD.mul a2 b2).denI
      = (PreD.mul a2 b2).num * (PreD.mul a1 b1).denI
  rw [PreD.denI_mul, PreD.denI_mul]
  show (a1.num * b1.num) * (a2.denI * b2.denI)
      = (a2.num * b2.num) * (a1.denI * b1.denI)
  linear_combination (b1.num * b2.denI) * h1 + (a2.num * a1.denI) * h2

theorem PreD.divS_respects {a1 a2 : PreD} (n : Nat) (h : a1 ≈ a2) :
    PreD.divS a1 n ≈ PreD.divS a2 n := by
  rw [PreD.equiv_def] at h ⊢
  unfold PreD.r at h ⊢
  show (PreD.divS a1 n).num * (PreD.divS a2 n).denI
      = (PreD.divS a2 n).num * (PreD.divS a1 n).denI
  rw [PreD.denI_divS, PreD.denI_divS]
  show a1.num * (a2.denI * ((n : Int) + 1)) = a2.num * (a1.denI * ((n : Int) + 1))
  linear_combination ((n : Int) + 1) * h

def Dbl.add : Dbl → Dbl → Dbl :=
  Quotient.map₂ PreD.add (fun _ _ h1 _ _ h2 => PreD.add_respects h1 h2)

def Dbl.sub : Dbl → Dbl → Dbl :=
  Quotient.map₂ PreD.sub (fun _ _ h1 _ _ h2 => PreD.sub_respects h1 h2)

def Dbl.mul : Dbl → Dbl → Dbl :=
  Quotient.map₂ PreD.mul (fun _ _ h1 _ _ h2 => PreD.mul_respects h1 h2)

def Dbl.divS (x : Dbl) (n : Nat) : Dbl :=
  Quotient.map (fun a => PreD.divS a n) (fun _ _ h => PreD.divS_respects n h) x

def PreD.ltb (a b : PreD) : Bool := decide (a.num * b.denI < b.num * a.denI)

theorem PreD.lt_half {a1 a2 b1 b2 : PreD} (h1 : a1 ≈ a2) (h2 : b1 ≈ b2)
    (h : a1.num * b1.denI < b1.num * a1.denI) :
    a2.num * b2.denI < b2.num * a2.denI := by
  rw [PreD.equiv_def] at h1 h2
  unfold PreD.r at h1 h2
  have hp : (0 : Int) < a1.denI * b1.denI := mul_pos a1.denI_pos b1.denI_pos
  have h4 := mul_lt_mul_of_pos_right h (mul_pos a2.denI_pos b2.denI_pos)
  have h5 : (a2.num * b2.denI) * (a1.denI * b1.denI)
      < (b2.num * a2.denI) * (a1.denI * b1.denI) := by
    have e1 : (a2.num * b2.denI) * (a1.denI * b1.denI)
        = (a1.num * b1.denI) * (a2.denI * b2.denI) := by
      linear_combination (-(b1.denI * b2.denI)) * h1
    have e2 : (b1.num * a1.denI) * (a2.denI * b2.denI)
        = (b2.num * a2.denI) * (a1.denI * b1.denI) := by
      linear_combination (a1.denI * a2.denI) * h2
    rw [e1, ← e2]
    exact h4
  exact lt_of_mul_lt_mul_right h5 (le_of_lt hp)

theorem PreD.ltb_respects {a1 a2 b1 b2 : PreD} (h1 : a1 ≈ a2) (h2 : b1 ≈ b2) :
    PreD.ltb a1 b1 = PreD.ltb a2 b2 := by
  unfold PreD.ltb
  rw [decide_eq_decide]
  constructor
  · exact PreD.lt_half h1 h2
  · exact PreD.lt_half (Setoid.symm h1) (Setoid.symm h2)

def Dbl.ltb : Dbl → Dbl → Bool :=
  Quotient.lift₂ PreD.ltb (fun _ _ _ _ h1 h2 => PreD.ltb_respects h1 h2)

def PreD.beq (a b : PreD) : Bool := decide (a.num * b.denI = b.num * a.denI)

theorem PreD.beq_respects {a1 a2 b1 b2 : PreD} (h1 : a1 ≈ a2) (h2 : b1 ≈ b2) :
    PreD.beq a1 b1 = PreD.beq a2 b2 := by
  unfold PreD.beq
  rw [decide_eq_decide]
  constructor
  · intro h
    exact PreD.r_trans (PreD.r_trans (PreD.r_symm h1) h) h2
  · intro h
    exact PreD.r_trans (PreD.r_trans h1 h) (PreD.r_symm h2)

def Dbl.beq : Dbl → Dbl → Bool :=
  Quotient.lift₂ PreD.beq (fun _ _ _ _ h1 h2 => PreD.beq_respects h1 h2)

theorem Dbl.beq_iff (x y : Dbl) : Dbl.beq x y = true ↔ x = y := by
  refine Quotient.inductionOn₂ x y fun a b => ?_
  show PreD.beq a b = true ↔ _
  unfold PreD.beq
  rw [decide_eq_true_iff]
  constructor
  · intro h
    exact Quotient.sound h
  · intro h
    exact Quotient.exact h

instance : DecidableEq Dbl := fun x y => decidable_of_iff _ (Dbl.beq_iff x y)

/-- Sum of a list of Dbl values (foldr over addition). -/
def dblSum (l : List Dbl) : Dbl := l.foldr Dbl.add (Dbl.ofInt 0)

theorem Dbl.add_left_comm (a b c : Dbl) :
    Dbl.add a (Dbl.add b c) = Dbl.add b (Dbl.add a c) := by
  refine Quotient.inductionOn₃ a b c fun x y z => ?_
  apply Quotient.sound
  rw [PreD.equiv_def]
  unfold PreD.r
  rw [PreD.denI_add, PreD.denI_add, PreD.denI_add, PreD.denI_add]
  show (x.num * (PreD.add y z).denI + (PreD.add y z).num * x.denI) * (y.denI * (x.denI * z.denI))
      = (y.num * (PreD.add x z).denI + (PreD.add x z).num * y.denI) * (x.denI * (y.denI * z.denI))
  rw [PreD.denI_add, PreD.denI_add]
  show (x.num * (y.denI * z.denI) + (y.num * z.denI + z.num * y.denI) * x.denI) * (y.denI * (x.denI * z.denI))
      = (y.num * (x.denI * z.denI) + (x.num * z.denI + z.num * x.denI) * y.denI) * (x.denI * (y.denI * z.denI))
  ring

theorem dblSum_perm {l1 l2 : List Dbl} (h : l1.Perm l2) : dblSum l1 = dblSum l2 := by
  induction h with
  | nil => rfl
  | cons x _ ih =>
      show Dbl.add x (dblSum _) = Dbl.add x (dblSum _)
      rw [ih]
  | swap x y l =>
      show Dbl.add y (Dbl.add x (dblSum l)) = Dbl.add x (Dbl.add y (dblSum l))
      exact Dbl.add_left_comm y x (dblSum l)
  | trans _ _ ih1 ih2 => exact ih1.trans ih2

/-- SQL AVG over the non-null temperature values of a group: null for an
empty list, otherwise the exact mean. -/
def avgOf : List Dbl → Option Dbl
  | [] => none
  | x :: t => some (Dbl.divS (dblSum (x :: t)) t.length)

theorem avgOf_perm {l1 l2 : List Dbl} (h : l1.Perm l2) : avgOf l1 = avgOf l2 := by
  cases l1 with
  | nil =>
      cases l2 with
      | nil => rfl
      | cons y s => exact absurd h.length_eq (by simp)
  | cons x t =>
      cases l2 with
      | nil => exact absurd h.length_eq (by simp)
      | cons y s =>
          have hl : t.length = s.length := by
            have := h.length_eq
            simpa using this
          show some (Dbl.divS (dblSum (x :: t)) t.length)
              = some (Dbl.divS (dblSum (y :: s)) s.length)
          rw [dblSum_perm h, hl]

instance : DecidableEq (Option Dbl) := fun a b =>
  match a, b with
  | none, none => isTrue rfl
  | some x, some y => decidable_of_iff (x = y) ⟨fun h => by rw [h], fun h => Option.some.inj h⟩
  | none, some _ => isFalse (fun h => Option.noConfusion h)
  | some _, none => isFalse (fun h => Option.noConfusion h)

/-! ### Calendar arithmetic

A calendar date is an integer day number (days since 1970-01-01), matching
the engine's internal DATE representation.  daysFromCivil and civilOf are
the standard Gregorian conversions; yearOf, monthOf, dayOf, dowOf and
weekOf model the YEAR, MONTH, DAY, DAYOFWEEK and WEEKOFYEAR functions. -/

def daysFromCivil (y m d : Int) : Int :=
  let y2 : Int := if m ≤ 2 then y - 1 else y
  let era : Int := Int.fdiv y2 400
  let yoe : Int := y2 - era * 400
  let mp : Int := Int.fmod (m + 9) 12
  let doy : Int := Int.fdiv (153 * mp + 2) 5 + d - 1
  let doe : Int := yoe * 365 + Int.fdiv yoe 4 - Int.fdiv yoe 100 + doy
  era * 146097 + doe - 719468

def civilOf (z : Int) : Int × Int × Int :=
  let z2 : Int := z + 719468
  let era : Int := Int.fdiv z2 146097
  let doe : Int := z2 - era * 146097
  let yoe : Int :=
    Int.fdiv (doe - Int.fdiv doe 1460 + Int.fdiv doe 36524 - Int.fdiv doe 146096) 365
  let y : Int := yoe + era * 400
  let doy : Int := doe - (365 * yoe + Int.fdiv yoe 4 - Int.fdiv yoe 100)
  let mp : Int := Int.fdiv (5 * doy + 2) 153
  let d : Int := doy - Int.fdiv (153 * mp + 2) 5 + 1
  let m : Int := if mp < 10 then mp + 3 else mp - 9
  (if m ≤ 2 then y + 1 else y, m, d)

def yearOf (z : Int) : Int := (civilOf z).1

def monthOf (z : Int) : Int := (civilOf z).2.1

def dayOf (z : Int) : Int := (civilOf z).2.2

/-- DAYOFWEEK: 1 = Sunday .. 7 = Saturday (day 0, 1970-01-01, was a Thursday). -/
def dowOf (z : Int) : Int := Int.emod (z + 4) 7 + 1

/-- ISO day of week: 1 = Monday .. 7 = Sunday. -/
def isoDowOf (z : Int) : Int := Int.emod (z + 3) 7 + 1

def doyOf (z : Int) : Int := z - daysFromCivil (yearOf z) 1 1 + 1

def isoLongYear (y : Int) : Bool :=
  let p : Int → Int := fun yy =>
    Int.emod (yy + Int.fdiv yy 4 - Int.fdiv yy 100 + Int.fdiv yy 400) 7
  p y = 4 || p (y - 1) = 3

def isoWeeksInYear (y : Int) : Int := if isoLongYear y then 53 else 52

/-- WEEKOFYEAR: the ISO-8601 week number of the date. -/
def weekOf (z : Int) : Int :=
  let w : Int := Int.fdiv (10 + doyOf z - isoDowOf z) 7
  if w < 1 then isoWeeksInYear (yearOf z - 1)
  else if isoWeeksInYear (yearOf z) < w then 1
  else w

/-- Day number of the SAS date epoch 1960-01-01. -/
def epoch1960 : Int := daysFromCivil 1960 1 1

/-! ### SQL primitives over nullable columns -/

/-- SQL equality of two nullable values: true only when both are non-null
and equal (NULL = x is never true in a join or filter condition). -/
def optEq {α : Type} [DecidableEq α] (a b : Option α) : Bool :=
  match a, b with
  | some x, some y => decide (x = y)
  | _, _ => false

theorem optEq_true_iff {α : Type} [DecidableEq α] {a b : Option α} :
    optEq a b = true ↔ ∃ x, a = some x ∧ b = some x := by
  cases a with
  | none => simp [optEq]
  | some x =>
      cases b with
      | none => simp [optEq]
      | some y =>
          simp only [optEq, decide_eq_true_iff]
          constructor
          · intro h
            exact ⟨x, rfl, by rw [h]⟩
          · intro h
            obtain ⟨z, hz1, hz2⟩ := h
            cases hz1
            exact (Option.some.inj hz2).symm

/-- SQL comparison a <= b on nullable values: true only when both non-null. -/
def optLe (a b : Option Int) : Bool :=
  match a, b with
  | some x, some y => decide (x ≤ y)
  | _, _ => false

/-- The rows a LEFT JOIN pairs a given left row with: one NULL row when
there is no match, otherwise every matching right row. -/
def optChoices {α : Type} (l : List α) : List (Option α) :=
  match l with
  | [] => [none]
  | xs => xs.map some

theorem mem_optChoices {α : Type} {l : List α} {x : Option α} :
    x ∈ optChoices l ↔ (l = [] ∧ x = none) ∨ ∃ y ∈ l, x = some y := by
  cases l with
  | nil => simp [optChoices]
  | cons a t =>
      simp only [optChoices, List.mem_map]
      constructor
      · intro h
        obtain ⟨y, hy, hxy⟩ := h
        exact Or.inr ⟨y, hy, hxy.symm⟩
      · intro h
        cases h with
        | inl h => exact absurd h.1 (by simp)
        | inr h =>
            obtain ⟨y, hy, hxy⟩ := h
            exact ⟨y, hy, hxy.symm⟩

/-- UPPER on a string (models SQL UPPER). -/
def upperStr (s : String) : String := ⟨s.data.map Char.toUpper⟩

/-- UPPER on a nullable string: NULL maps to NULL. -/
def optUpper (s : Option String) : Option String := s.map upperStr

/-! ### Row schemas

One structure per table schema appearing in etl.py; nullable columns are
Option-typed.  DecidableEq instances for structures with Dbl columns are
written by hand through decidable_of_iff so that concrete row comparisons
reduce inside the kernel. -/

/-- A raw i94 immigration record (the SAS fact source), restricted to the
columns the conformance query reads. -/
structure RawI94 where
  cicid : Option Int
  i94res : Option Int
  i94cit : Option Int
  i94port : Option String
  i94mode : Option Int
  i94visa : Option Int
  visatype : Option String
  gender : Option String
  i94bir : Option Int
  arrdate : Option Int
  depdate : Option Int
deriving DecidableEq

structure CountryRef where
  code : Option Int
  country_name : Option String
deriving DecidableEq

structure PortRef where
  code : Option String
  port_location : Option String
  state : Option String
deriving DecidableEq

structure ModeRef where
  code : Option Int
  border_cross_method : Option String
deriving DecidableEq

structure VisaRef where
  code : Option Int
  visa_type : Option String
deriving DecidableEq

structure StateRef where
  code : Option String
  state : Option String
deriving DecidableEq

/-- Schema of i94_source_table / i94_clean_source_table. -/
structure I94SourceRow where
  id : Option Int
  country_of_residence : Option String
  country_of_citizenship : Option String
  city_of_entry : Option String
  state_of_entry_code : Option String
  state_of_entry_full : Option String
  border_cross_method : Option String
  type_of_visa : Option String
  class_of_admission : Option String
  gender : Option String
  age : Option Int
  arr_date : Option Int
  dep_date : Option Int
  year : Option Int
  month : Option Int
  day : Option Int
deriving DecidableEq

/-- Schema of cities_pop_source_table (long format, one row per race). -/
structure DemoRow where
  city : Option String
  state : Option String
  median_age : Option Dbl
  male_population : Option Int
  female_population : Option Int
  total_population : Option Int
  number_of_veterans : Option Int
  foreign_born : Option Int
  avg_household_size : Option Dbl
  state_code : Option String
  race : Option String
  count : Option Int

instance : DecidableEq DemoRow := fun a b =>
  decidable_of_iff (a.city = b.city ∧ a.state = b.state ∧ a.median_age = b.median_age
    ∧ a.male_population = b.male_population ∧ a.female_population = b.female_population
    ∧ a.total_population = b.total_population ∧ a.number_of_veterans = b.number_of_veterans
    ∧ a.foreign_born = b.foreign_born ∧ a.avg_household_size = b.avg_household_size
    ∧ a.state_code = b.state_code ∧ a.race = b.race ∧ a.count = b.count)
    (by cases a; cases b; simp)

/-- Schema of the pivoted preprocessed demographics table. -/
structure DemoPivotRow where
  city : Option String
  state : Option String
  state_code : Option String
  median_age : Option Dbl
  male_population : Option Int
  female_population : Option Int
  total_population : Option Int
  number_of_veterans : Option Int
  foreign_born : Option Int
  avg_household_size : Option Dbl
  american_indian_and_alaska_native : Option Int
  asian : Option Int
  white : Option Int
  hispanic_or_latino : Option Int
  black_or_african_american : Option Int

instance : DecidableEq DemoPivotRow := fun a b =>
  decidable_of_iff (a.city = b.city ∧ a.state = b.state ∧ a.state_code = b.state_code
    ∧ a.median_age = b.median_age ∧ a.male_population = b.male_population
    ∧ a.female_population = b.female_population ∧ a.total_population = b.total_population
    ∧ a.number_of_veterans = b.number_of_veterans ∧ a.foreign_born = b.foreign_born
    ∧ a.avg_household_size = b.avg_household_size
    ∧ a.american_indian_and_alaska_native = b.american_indian_and_alaska_native
    ∧ a.asian = b.asian ∧ a.white = b.white ∧ a.hispanic_or_latino = b.hispanic_or_latino
    ∧ a.black_or_african_american = b.black_or_african_american)
    (by cases a; cases b; simp)

/-- Schema of airports_source_table. -/
structure AirportRow where
  type : Option String
  name : Option String
  elevation_ft : Option Int
  iso_region : Option String
  municipality : Option String
  gps_code : Option String
  lon : Option Dbl
  lat : Option Dbl

instance : DecidableEq AirportRow := fun a b =>
  decidable_of_iff (a.type = b.type ∧ a.name = b.name ∧ a.elevation_ft = b.elevation_ft
    ∧ a.iso_region = b.iso_region ∧ a.municipality = b.municipality
    ∧ a.gps_code = b.gps_code ∧ a.lon = b.lon ∧ a.lat = b.lat)
    (by cases a; cases b; simp)

/-- Schema of weather_source_table as loaded in process_source_data. -/
structure WeatherSourceRow where
  dt : Option Int
  year : Option Int
  month : Option Int
  day : Option Int
  avg_temperature : Option Dbl
  city : Option String
  country : Option String
  lon : Option Dbl
  lat : Option Dbl

instance : DecidableEq WeatherSourceRow := fun a b =>
  decidable_of_iff (a.dt = b.dt ∧ a.year = b.year ∧ a.month = b.month ∧ a.day = b.day
    ∧ a.avg_temperature = b.avg_temperature ∧ a.city = b.city ∧ a.country = b.country
    ∧ a.lon = b.lon ∧ a.lat = b.lat)
    (by cases a; cases b; simp)

/-- Schema of the first tmp_loc_table (distinct city coordinates). -/
structure LocRow where
  city : Option String
  lat : Option Dbl
  lon : Option Dbl

instance : DecidableEq LocRow := fun a b =>
  decidable_of_iff (a.city = b.city ∧ a.lat = b.lat ∧ a.lon = b.lon)
    (by cases a; cases b; simp)

/-- Schema of the second tmp_loc_table (city coordinates with a state). -/
structure LocStateRow where
  city : Option String
  state : Option String
  lat : Option Dbl
  lon : Option Dbl

instance : DecidableEq LocStateRow := fun a b =>
  decidable_of_iff (a.city = b.city ∧ a.state = b.state ∧ a.lat = b.lat ∧ a.lon = b.lon)
    (by cases a; cases b; simp)

/-- GROUP BY key of the final weather aggregation. -/
structure WKey where
  dt : Option Int
  year : Option Int
  month : Option Int
  day : Option Int
  city : Option String
  state : Option String
  lat : Option Dbl
  lon : Option Dbl

instance : DecidableEq WKey := fun a b =>
  decidable_of_iff (a.dt = b.dt ∧ a.year = b.year ∧ a.month = b.month ∧ a.day = b.day
    ∧ a.city = b.city ∧ a.state = b.state ∧ a.lat = b.lat ∧ a.lon = b.lon)
    (by cases a; cases b; simp)

/-- Schema of the preprocessed weather table (aggregated, with state). -/
structure WeatherPreRow where
  dt : Option Int
  year : Option Int
  month : Option Int
  day : Option Int
  city : Option String
  state : Option String
  lat : Option Dbl
  lon : Option Dbl
  avg_temperature : Option Dbl

instance : DecidableEq WeatherPreRow := fun a b =>
  decidable_of_iff (a.dt = b.dt ∧ a.year = b.year ∧ a.month = b.month ∧ a.day = b.day
    ∧ a.city = b.city ∧ a.state = b.state ∧ a.lat = b.lat ∧ a.lon = b.lon
    ∧ a.avg_temperature = b.avg_temperature)
    (by cases a; cases b; simp)

/-- Schema of dim_time. -/
structure TimeRow where
  dt : Option Int
  year : Option Int
  month : Option Int
  day : Option Int
  dow : Option Int
  week : Option Int
deriving DecidableEq

/-- Schema of airports_pivot_table (airport counts per region and city). -/
structure APivotRow where
  iso_region : Option String
  municipality : Option String
  number_of_airports : Int
deriving DecidableEq

/-- Schema of dim_cities. -/
structure CityRow where
  city : Option String
  state : Option String
  state_code : Option String
  median_age : Option Dbl
  male_population : Option Int
  female_population : Option Int
  total_population : Option Int
  number_of_veterans : Option Int
  foreign_born : Option Int
  avg_household_size : Option Dbl
  american_indian_and_alaska_native : Option Int
  asian : Option Int
  white : Option Int
  hispanic_or_latino : Option Int
  black_or_african_american : Option Int
  number_of_airports : Option Int

instance : DecidableEq CityRow := fun a b =>
  decidable_of_iff (a.city = b.city ∧ a.state = b.state ∧ a.state_code = b.state_code
    ∧ a.median_age = b.median_age ∧ a.male_population = b.male_population
    ∧ a.female_population = b.female_population ∧ a.total_population = b.total_population
    ∧ a.number_of_veterans = b.number_of_veterans ∧ a.foreign_born = b.foreign_born
    ∧ a.avg_household_size = b.avg_household_size
    ∧ a.american_indian_and_alaska_native = b.american_indian_and_alaska_native
    ∧ a.asian = b.asian ∧ a.white = b.white ∧ a.hispanic_or_latino = b.hispanic_or_latino
    ∧ a.black_or_african_american = b.black_or_african_american
    ∧ a.number_of_airports = b.number_of_airports)
    (by cases a; cases b; simp)

/-- Schema of fact_i94_history before the weather enrichment join. -/
structure FactBaseRow where
  id : Option Int
  country_of_residence : Option String
  country_of_citizenship : Option String
  city_of_entry : Option String
  state_of_entry_code : Option String
  border_cross_method : Option String
  type_of_visa : Option String
  class_of_admission : Option String
  gender : Option String
  age : Option Int
  arr_date : Option Int
  dep_date : Option Int
  year : Option Int
  month : Option Int
  day : Option Int
deriving DecidableEq

/-- Schema of the final fact_i94_history table. -/
structure FactRow where
  id : Option Int
  country_of_residence : Option String
  country_of_citizenship : Option String
  city_of_entry : Option String
  state_of_entry_code : Option String
  border_cross_method : Option String
  type_of_visa : Option String
  class_of_admission : Option String
  gender : Option String
  age : Option Int
  arr_date : Option Int
  dep_date : Option Int
  year : Option Int
  month : Option Int
  day : Option Int
  avg_temperature : Option Dbl

instance : DecidableEq FactRow := fun a b =>
  decidable_of_iff (a.id = b.id ∧ a.country_of_residence = b.country_of_residence
    ∧ a.country_of_citizenship = b.country_of_citizenship
    ∧ a.city_of_entry = b.city_of_entry ∧ a.state_of_entry_code = b.state_of_entry_code
    ∧ a.border_cross_method = b.border_cross_method ∧ a.type_of_visa = b.type_of_visa
    ∧ a.class_of_admission = b.class_of_admission ∧ a.gender = b.gender ∧ a.age = b.age
    ∧ a.arr_date = b.arr_date ∧ a.dep_date = b.dep_date ∧ a.year = b.year
    ∧ a.month = b.month ∧ a.day = b.day ∧ a.avg_temperature = b.avg_temperature)
    (by cases a; cases b; simp)

/-! ### Stage 1: source conformance (load_source_data, etl.py lines 72-94)

The i94 conformance query: a six-way inner join of the raw fact source
against the reference dictionaries, with code-to-label resolution,
upper-casing, SAS date decoding (date_add from the 1960-01-01 epoch) and
derived year/month/day partition fields. -/

def conformI94 (i : RawI94) (c1 c2 : CountryRef) (p : PortRef) (m : ModeRef)
    (v : VisaRef) (s : StateRef) : I94SourceRow :=
  { id := i.cicid
    country_of_residence := optUpper c1.country_name
    country_of_citizenship := optUpper c2.country_name
    city_of_entry := optUpper p.port_location
    state_of_entry_code := optUpper p.state
    state_of_entry_full := optUpper s.state
    border_cross_method := m.border_cross_method
    type_of_visa := v.visa_type
    class_of_admission := i.visatype
    gender := i.gender
    age := i.i94bir
    arr_date := i.arrdate.map (fun n => epoch1960 + n)
    dep_date := i.depdate.map (fun n => epoch1960 + n)
    year := (i.arrdate.map (fun n => epoch1960 + n)).map yearOf
    month := (i.arrdate.map (fun n => epoch1960 + n)).map monthOf
    day := (i.arrdate.map (fun n => epoch1960 + n)).map dayOf }

def joinCondI94 (i : RawI94) (c1 c2 : CountryRef) (p : PortRef) (m : ModeRef)
    (v : VisaRef) (s : StateRef) : Bool :=
  optEq i.i94res c1.code && optEq i.i94cit c2.code && optEq i.i94port p.code
    && optEq i.i94mode m.code && optEq i.i94visa v.code && optEq p.state s.code

def i94SourceTable (raws : List RawI94) (countries : List CountryRef)
    (ports : List PortRef) (modes : List ModeRef) (visas : List VisaRef)
    (states : List StateRef) : List I94SourceRow :=
  raws.flatMap fun i =>
    countries.flatMap fun c1 =>
      countries.flatMap fun c2 =>
        ports.flatMap fun p =>
          modes.flatMap fun m =>
            visas.flatMap fun v =>
              states.flatMap fun s =>
                if joinCondI94 i c1 c2 p m v s then [conformI94 i c1 c2 p m v s] else []

/-! ### Stage 2: cleaning (process_source_data)

i94 cleaning, etl.py lines 208-214: SELECT DISTINCT with the null filter
and the departure-not-before-arrival filter. -/

def cleanCondI94 (r : I94SourceRow) : Bool :=
  r.id.isSome && r.state_of_entry_code.isSome && r.city_of_entry.isSome
    && r.arr_date.isSome && (r.dep_date.isNone || optLe r.arr_date r.dep_date)

def i94Preprocessed (src : List I94SourceRow) : List I94SourceRow :=
  (src.filter cleanCondI94).dedup

/- Demographics cleaning and pivot, etl.py lines 226-272: null filter on
city and state_code; then five independent left joins (one per race
label) on (city, state), combined with SELECT DISTINCT. -/

def demoFiltered (demo : List DemoRow) : List DemoRow :=
  demo.filter fun c => c.city.isSome && c.state_code.isSome

def raceLbl1 : String := "American Indian and Alaska Native"

def raceLbl2 : String := "Asian"

def raceLbl3 : String := "White"

def raceLbl4 : String := "Hispanic or Latino"

def raceLbl5 : String := "Black or African-American"

/-- The rows of the per-race subquery that a base row joins against:
rows with the given race whose (city, state) equal the base row's. -/
def raceMatches (f : List DemoRow) (lbl : String) (c : DemoRow) : List DemoRow :=
  f.filter fun r => optEq r.race (some lbl) && optEq c.city r.city && optEq c.state r.state

def mkPivotRow (c : DemoRow) (m1 m2 m3 m4 m5 : Option DemoRow) : DemoPivotRow :=
  { city := c.city
    state := c.state
    state_code := c.state_code
    median_age := c.median_age
    male_population := c.male_population
    female_population := c.female_population
    total_population := c.total_population
    number_of_veterans := c.number_of_veterans
    foreign_born := c.foreign_born
    avg_household_size := c.avg_household_size
    american_indian_and_alaska_native := m1.bind (fun r => r.count)
    asian := m2.bind (fun r => r.count)
    white := m3.bind (fun r => r.count)
    hispanic_or_latino := m4.bind (fun r => r.count)
    black_or_african_american := m5.bind (fun r => r.count) }

def demoPivot (demo : List DemoRow) : List DemoPivotRow :=
  ((demoFiltered demo).flatMap fun c =>
    (optChoices (raceMatches (demoFiltered demo) raceLbl1 c)).flatMap fun m1 =>
      (optChoices (raceMatches (demoFiltered demo) raceLbl2 c)).flatMap fun m2 =>
        (optChoices (raceMatches (demoFiltered demo) raceLbl3 c)).flatMap fun m3 =>
          (optChoices (raceMatches (demoFiltered demo) raceLbl4 c)).flatMap fun m4 =>
            (optChoices (raceMatches (demoFiltered demo) raceLbl5 c)).flatMap fun m5 =>
              [mkPivotRow c m1 m2 m3 m4 m5]).dedup

/- Airports cleaning, etl.py lines 284-289: null filter only. -/

def airportsPre (a : List AirportRow) : List AirportRow :=
  a.filter fun r =>
    r.municipality.isSome && r.iso_region.isSome && r.lat.isSome && r.lon.isSome

/- Weather cleaning and region assignment, etl.py lines 305-333. -/

def weatherCleanCond (r : WeatherSourceRow) : Bool :=
  r.avg_temperature.isSome && r.dt.isSome && r.city.isSome
    && r.lat.isSome && r.lon.isSome

def weatherCleaned (w : List WeatherSourceRow) : List WeatherSourceRow :=
  (w.filter weatherCleanCond).dedup

def tmpLoc (w : List WeatherSourceRow) : List LocRow :=
  ((weatherCleaned w).map fun r => LocRow.mk r.city r.lat r.lon).dedup

/-- The proximity-join condition SQRT((la1-la2)^2+(lo1-lo2)^2) < 1.  Since
the radicand is non-negative and 1^2 = 1, the square root is below 1
exactly when the radicand is, so the embedding compares the squared
distance with 1; a NULL operand makes the SQL comparison not-true. -/
def distLt1 (la1 lo1 la2 lo2 : Option Dbl) : Bool :=
  match la1, lo1, la2, lo2 with
  | some a, some b, some c, some d =>
      Dbl.ltb
        (Dbl.add (Dbl.mul (Dbl.sub a c) (Dbl.sub a c))
          (Dbl.mul (Dbl.sub b d) (Dbl.sub b d)))
        (Dbl.ofInt 1)
  | _, _, _, _ => false

def tmpLocState (w : List WeatherSourceRow) (a : List AirportRow) : List LocStateRow :=
  ((tmpLoc w).flatMap fun l =>
    (airportsPre a).filterMap fun ap =>
      if distLt1 l.lat l.lon ap.lat ap.lon && optEq l.city ap.municipality then
        some (LocStateRow.mk l.city ap.iso_region l.lat l.lon)
      else none).dedup

/-- The exact (city, lat, lon) match joining a weather row back to the
location-to-state mapping. -/
def joinWL (r : WeatherSourceRow) (l : LocStateRow) :
    Option (WeatherSourceRow × LocStateRow) :=
  if optEq r.city l.city && optEq r.lat l.lat && optEq r.lon l.lon then
    some (r, l)
  else none

def weatherJoined (w : List WeatherSourceRow) (a : List AirportRow) :
    List (WeatherSourceRow × LocStateRow) :=
  (weatherCleaned w).flatMap fun r => (tmpLocState w a).filterMap (joinWL r)

def wKey (p : WeatherSourceRow × LocStateRow) : WKey :=
  ⟨p.1.dt, p.1.year, p.1.month, p.1.day, p.1.city, p.2.state, p.1.lat, p.1.lon⟩

def weatherGroupRow (j : List (WeatherSourceRow × LocStateRow)) (k : WKey) :
    WeatherPreRow :=
  let temps := (j.filter fun p => decide (wKey p = k)).filterMap
    fun p => p.1.avg_temperature
  ⟨k.dt, k.year, k.month, k.day, k.city, k.state, k.lat, k.lon, avgOf temps⟩

/-- The preprocessed weather table: join the cleaned observations back to
the location-to-state mapping and GROUP BY the full key, averaging the
temperature across any fan-out. -/
def weatherPre (w : List WeatherSourceRow) (a : List AirportRow) : List WeatherPreRow :=
  ((weatherJoined w a).map wKey).dedup.map (weatherGroupRow (weatherJoined w a))

/-! ### Stage 3: dimensional modeling (build_data_model) -/

/-- One dim_time row: a date value decorated with its calendar parts,
etl.py lines 437-450. -/
def timeRowOf (o : Option Int) : TimeRow :=
  ⟨o, o.map yearOf, o.map monthOf, o.map dayOf, o.map dowOf, o.map weekOf⟩

def dimTime (i94 : List I94SourceRow) (w : List WeatherPreRow) : List TimeRow :=
  ((i94.map fun i => timeRowOf i.arr_date).dedup
    ++ ((i94.filter fun i => i.dep_date.isSome).map fun i => timeRowOf i.dep_date).dedup
    ++ (w.map fun r => timeRowOf r.dt).dedup).dedup

/-- airports_pivot_table, etl.py lines 466-470: GROUP BY (iso_region,
municipality) with COUNT(*). -/
def airportsPivot (a : List AirportRow) : List APivotRow :=
  ((a.map fun r => (r.iso_region, r.municipality)).dedup).map fun k =>
    APivotRow.mk k.1 k.2
      ((a.filter fun r => decide (r.iso_region = k.1 ∧ r.municipality = k.2)).length)

def mkCityRow (d : DemoPivotRow) (n : Option Int) : CityRow :=
  { city := d.city
    state := d.state
    state_code := d.state_code
    median_age := d.median_age
    male_population := d.male_population
    female_population := d.female_population
    total_population := d.total_population
    number_of_veterans := d.number_of_veterans
    foreign_born := d.foreign_born
    avg_household_size := d.avg_household_size
    american_indian_and_alaska_native := d.american_indian_and_alaska_native
    asian := d.asian
    white := d.white
    hispanic_or_latino := d.hispanic_or_latino
    black_or_african_american := d.black_or_african_american
    number_of_airports := n }

/-- The dim_cities rows the LEFT JOIN of etl.py lines 460-478 produces for
one demographic row: demographics left-joined with the airport counts on
(city = municipality, state_code = iso_region). -/
def cityRowsFor (airports : List AirportRow) (dc : DemoPivotRow) : List CityRow :=
  match (airportsPivot airports).filter (fun ap =>
      optEq dc.city ap.municipality && optEq dc.state_code ap.iso_region) with
  | [] => [mkCityRow dc none]
  | xs => xs.map fun ap => mkCityRow dc (some ap.number_of_airports)

def dimCities (demo : List DemoPivotRow) (airports : List AirportRow) : List CityRow :=
  demo.flatMap (cityRowsFor airports)

/-- fact_i94_history before enrichment, etl.py lines 494-501: projection
plus year/month/day derived from the arrival date. -/
def factBaseRow (i : I94SourceRow) : FactBaseRow :=
  { id := i.id
    country_of_residence := i.country_of_residence
    country_of_citizenship := i.country_of_citizenship
    city_of_entry := i.city_of_entry
    state_of_entry_code := i.state_of_entry_code
    border_cross_method := i.border_cross_method
    type_of_visa := i.type_of_visa
    class_of_admission := i.class_of_admission
    gender := i.gender
    age := i.age
    arr_date := i.arr_date
    dep_date := i.dep_date
    year := i.arr_date.map yearOf
    month := i.arr_date.map monthOf
    day := i.arr_date.map dayOf }

def factBase (i94 : List I94SourceRow) : List FactBaseRow :=
  i94.map factBaseRow

/-- The weather-enrichment join condition of etl.py lines 504-510. -/
def factWeatherMatch (f : FactBaseRow) (w : WeatherPreRow) : Bool :=
  optEq (f.arr_date.map yearOf) (w.dt.map yearOf)
    && optEq (f.arr_date.map monthOf) (w.dt.map monthOf)
    && optEq f.city_of_entry w.city && optEq f.state_of_entry_code w.state

def mkFactRow (f : FactBaseRow) (t : Option Dbl) : FactRow :=
  { id := f.id
    country_of_residence := f.country_of_residence
    country_of_citizenship := f.country_of_citizenship
    city_of_entry := f.city_of_entry
    state_of_entry_code := f.state_of_entry_code
    border_cross_method := f.border_cross_method
    type_of_visa := f.type_of_visa
    class_of_admission := f.class_of_admission
    gender := f.gender
    age := f.age
    arr_date := f.arr_date
    dep_date := f.dep_date
    year := f.year
    month := f.month
    day := f.day
    avg_temperature := t }

/-- The fact rows the LEFT JOIN of etl.py lines 504-510 produces for one
event row: a single row with a null temperature when no weather row
matches, otherwise one row per matching weather row. -/
def factRowsFor (wpre : List WeatherPreRow) (f : FactBaseRow) : List FactRow :=
  match wpre.filter (factWeatherMatch f) with
  | [] => [mkFactRow f none]
  | xs => xs.map fun w => mkFactRow f w.avg_temperature

def factTable (i94 : List I94SourceRow) (wpre : List WeatherPreRow) : List FactRow :=
  (factBase i94).flatMap (factRowsFor wpre)

/-! ### Quality gate (check_model_quality, etl.py lines 364-402) -/

/-- The date-coverage join condition: arrival year and month equal the
time-dimension row's year and month. -/
def timeMatch (f : FactRow) (t : TimeRow) : Bool :=
  optEq (f.arr_date.map yearOf) (t.dt.map yearOf)
    && optEq (f.arr_date.map monthOf) (t.dt.map monthOf)

def checkModelQuality (fact : List FactRow) (cities : List CityRow)
    (time : List TimeRow) : Bool :=
  if fact.length = 0 ∨ cities.length = 0 ∨ time.length = 0 then false
  else if 0 < (fact.filter fun f => time.all fun t => !(timeMatch f t)).length then false
  else true

structure AnalyticsOutput where
  fact : List FactRow
  cities : List CityRow
  time : List TimeRow

/-- build_data_model, etl.py lines 405-539: construct the three analytical
tables, run the gate, and persist them only when the gate passes (the
early return on gate failure writes nothing). -/
def buildDataModel (i94 : List I94SourceRow) (demo : List DemoPivotRow)
    (weather : List WeatherPreRow) (airports : List AirportRow) :
    Option AnalyticsOutput :=
  if checkModelQuality (factTable i94 weather) (dimCities demo airports)
      (dimTime i94 weather) then
    some ⟨factTable i94 weather, dimCities demo airports, dimTime i94 weather⟩
  else none

/-- The names of the analytical tables a run persists. -/
def writtenAnalyticsTables (r : Option AnalyticsOutput) : List String :=
  match r with
  | none => []
  | some _ => ["fact_i94_history", "dim_cities", "dim_time"]

/-! ### Concrete inputs used by claim witnesses and counterexamples -/

def c4FactRow : FactRow :=
  ⟨some 1, none, none, some "CHICAGO", some "IL", none, none, none, none, none,
    some 16892, none, none, none, none, none⟩

def c4CityRow : CityRow :=
  ⟨some "CHICAGO", none, some "IL", none, none, none, none, none, none, none,
    none, none, none, none, none, none⟩

def c6Row : I94SourceRow :=
  ⟨some 7, none, none, some "CHICAGO", some "IL", none, none, none, none, none,
    none, some 16892, some 16900, none, none, none⟩

def c7Raw : RawI94 :=
  ⟨some 1, some 100, some 100, some "NYC", some 1, some 2, some "B2", some "M",
    some 30, some 20600, none⟩

def c7Country : CountryRef := ⟨some 100, some "Mexico"⟩

def c7Port : PortRef := ⟨some "NYC", some "New York", some "NY"⟩

def c7Mode : ModeRef := ⟨some 1, some "Air"⟩

def c7Visa : VisaRef := ⟨some 2, some "Pleasure"⟩

def c7State : StateRef := ⟨some "NY", some "New York"⟩

def c6RowA : I94SourceRow :=
  ⟨some 5, none, none, some "NEW YORK", some "NY", none, none, none, none,
    some "M", none, some 0, none, none, none, none⟩

def c6RowB : I94SourceRow :=
  ⟨some 5, none, none, some "NEW YORK", some "NY", none, none, none, none,
    some "F", none, some 0, none, none, none, none⟩

def c3Row : I94SourceRow :=
  ⟨some 9, none, none, some "BOSTON", some "MA", none, none, none, none, none,
    none, some 100, some 200, none, none, none⟩

def c3W : WeatherPreRow :=
  ⟨some 300, some 1970, some 10, some 28, some "BOSTON", some "MA", none, none, none⟩

def c10Row : I94SourceRow :=
  ⟨some 11, none, none, some "SEATTLE", some "WA", none, none, none, none, none,
    none, some 16892, none, none, none, none⟩

def c10Demo : DemoPivotRow :=
  ⟨some "SEATTLE", some "WASHINGTON", some "WA", none, none, none, none, none,
    none, none, none, none, none, none, none⟩

def c8Obs : WeatherSourceRow :=
  ⟨some 0, some 1970, some 1, some 1, some (Dbl.ofInt 5), some "FRESNO",
    some "UNITED STATES", some (Dbl.ofInt (-20)), some (Dbl.ofInt 10)⟩

/-- An airport of the same municipality 0.5 degrees away (region CA). -/
def c8Near : AirportRow :=
  ⟨some "small_airport", some "Near Field", some 100, some "CA", some "FRESNO",
    none, some (Dbl.ofInt (-20)), some (Dbl.mkFrac 21 1)⟩

/-- An airport of the same municipality 2.0 degrees away (region NV). -/
def c8Far : AirportRow :=
  ⟨some "small_airport", some "Far Field", some 100, some "NV", some "FRESNO",
    none, some (Dbl.ofInt (-20)), some (Dbl.ofInt 12)⟩

def c8W : List WeatherSourceRow := [c8Obs]

def c8A : List AirportRow := [c8Near, c8Far]

def c9x : WeatherSourceRow :=
  ⟨some 0, some 1970, some 1, some 1, some (Dbl.ofInt 3), some "RENO",
    some "UNITED STATES", some (Dbl.ofInt (-30)), some (Dbl.ofInt 40)⟩

def c9y : WeatherSourceRow :=
  ⟨some 31, some 1970, some 2, some 1, some (Dbl.ofInt 7), some "RENO",
    some "UNITED STATES", some (Dbl.ofInt (-30)), some (Dbl.ofInt 40)⟩

def c9W1 : List WeatherSourceRow := [c9x, c9y]

def c9W2 : List WeatherSourceRow := [c9y, c9x]

def c9A : List AirportRow :=
  [⟨some "small_airport", some "Reno Field", some 100, some "NV", some "RENO",
    none, some (Dbl.ofInt (-30)), some (Dbl.mkFrac 81 1)⟩]

def c1Event : I94SourceRow :=
  ⟨some 1, none, none, some "SPRINGFIELD", some "CA", none, none, none, none, none,
    none, some 0, none, none, none, none⟩

def c1I94 : List I94SourceRow := [c1Event]

def c1Obs1 : WeatherSourceRow :=
  ⟨some 0, some 1970, some 1, some 1, some (Dbl.ofInt 5), some "SPRINGFIELD",
    some "UNITED STATES", some (Dbl.ofInt (-20)), some (Dbl.ofInt 10)⟩

def c1Obs2 : WeatherSourceRow :=
  ⟨some 0, some 1970, some 1, some 1, some (Dbl.ofInt 7), some "SPRINGFIELD",
    some "UNITED STATES", some (Dbl.ofInt (-20)), some (Dbl.mkFrac 21 1)⟩

def c1W : List WeatherSourceRow := [c1Obs1, c1Obs2]

def c1A : List AirportRow :=
  [⟨some "small_airport", some "Springfield Field", some 100, some "CA",
    some "SPRINGFIELD", none, some (Dbl.ofInt (-20)), some (Dbl.ofInt 10)⟩]

/-- The (city, state, arrival year, arrival month) key the fact-table
enrichment joins on: two weather rows sharing it both match one event. -/
def factWeatherKeyDistinct (x y : WeatherPreRow) : Prop :=
  ¬(x.city = y.city ∧ x.state = y.state ∧ x.dt.map yearOf = y.dt.map yearOf
    ∧ x.dt.map monthOf = y.dt.map monthOf)

instance : ∀ x y : WeatherPreRow, Decidable (factWeatherKeyDistinct x y) := fun _ _ =>
  inferInstanceAs (Decidable (¬(_ ∧ _ ∧ _ ∧ _)))

/-- Agreement of two long-format demographics rows on all non-race
columns: the columns the pivot copies unchanged from the base row. -/
def nonRaceEq (r1 r2 : DemoRow) : Prop :=
  r1.city = r2.city ∧ r1.state = r2.state ∧ r1.state_code = r2.state_code
    ∧ r1.median_age = r2.median_age ∧ r1.male_population = r2.male_population
    ∧ r1.female_population = r2.female_population
    ∧ r1.total_population = r2.total_population
    ∧ r1.number_of_veterans = r2.number_of_veterans
    ∧ r1.foreign_born = r2.foreign_born
    ∧ r1.avg_household_size = r2.avg_household_size

instance : ∀ r1 r2 : DemoRow, Decidable (nonRaceEq r1 r2) := fun _ _ =>
  inferInstanceAs (Decidable (_ ∧ _ ∧ _ ∧ _ ∧ _ ∧ _ ∧ _ ∧ _ ∧ _ ∧ _))

/-- The filtered source rows carrying the given race label for the given
(city, state) pair. -/
def catFilter (src : List DemoRow) (c s lbl : String) : List DemoRow :=
  (demoFiltered src).filter fun r =>
    decide (r.race = some lbl ∧ r.city = some c ∧ r.state = some s)

/-- The source's count for a race category of a (city, state) pair: null
when the category is absent for the pair. -/
def catCount (src : List DemoRow) (c s lbl : String) : Option Int :=
  ((catFilter src c s lbl).head?).bind fun r => r.count

def c2BadA : DemoRow :=
  ⟨some "CHICAGO", some "ILLINOIS", none, some 100, none, none, none, none,
    none, some "IL", some "Asian", some 500⟩

def c2BadB : DemoRow :=
  ⟨some "CHICAGO", some "ILLINOIS", none, some 200, none, none, none, none,
    none, some "IL", some "White", some 1000⟩

def c2Bad : List DemoRow := [c2BadA, c2BadB]

def c2GoodA : DemoRow :=
  ⟨some "CHICAGO", some "ILLINOIS", none, some 100, none, none, none, none,
    none, some "IL", some "Asian", some 500⟩

def c2GoodB : DemoRow :=
  ⟨some "CHICAGO", some "ILLINOIS", none, some 100, none, none, none, none,
    none, some "IL", some "White", some 1000⟩

def c2Good : List DemoRow := [c2GoodA, c2GoodB]

/-! ### Claims -/

/-- Characterization of the quality gate, shared by several claims: the
gate succeeds exactly when all three tables are non-empty and every fact
row's arrival (year, month) is covered by some dim_time row. -/
theorem checkQualityTrueIff (fact : List FactRow) (cities : List CityRow) (time : List TimeRow) :
    checkModelQuality fact cities time = true ↔
      (fact ≠ [] ∧ cities ≠ [] ∧ time ≠ []
        ∧ ∀ f ∈ fact, ∃ t ∈ time, timeMatch f t = true) := by
  unfold checkModelQuality
  split_ifs with h1 h2
  · simp only [Bool.false_eq_true, false_iff]
    intro hc
    obtain ⟨hf, hcit, ht, _⟩ := hc
    rcases h1 with h | h | h
    · exact hf (List.length_eq_zero.mp h)
    · exact hcit (List.length_eq_zero.mp h)
    · exact ht (List.length_eq_zero.mp h)
  · simp only [Bool.false_eq_true, false_iff]
    intro hc
    obtain ⟨_, _, _, hall⟩ := hc
    have hne : (fact.filter fun f => time.all fun t => !(timeMatch f t)) ≠ [] := by
      intro hnil
      rw [hnil] at h2
      exact absurd h2 (by simp)
    obtain ⟨f, hfmem⟩ := List.exists_mem_of_ne_nil _ hne
    rw [List.mem_filter] at hfmem
    obtain ⟨hfm, hfall⟩ := hfmem
    rw [List.all_eq_true] at hfall
    obtain ⟨t, htm, htmatch⟩ := hall f hfm
    have := hfall t htm
    rw [htmatch] at this
    exact absurd this (by simp)
  · simp only [true_iff]
    push_neg at h1
    obtain ⟨hf, hc, ht⟩ := h1
    refine ⟨fun h => hf (by rw [h]; rfl), fun h => hc (by rw [h]; rfl),
      fun h => ht (by rw [h]; rfl), ?_⟩
    intro f hfm
    have hemp : (fact.filter fun f => time.all fun t => !(timeMatch f t)) = [] := by
      rcases List.eq_nil_or_concat (fact.filter fun f => time.all fun t => !(timeMatch f t))
        with h | ⟨l, x, hx⟩
      · exact h
      · exfalso
        apply h2
        rw [hx]
        simp
    have : ¬ (time.all fun t => !(timeMatch f t)) = true := by
      intro hallt
      have : f ∈ (fact.filter fun f => time.all fun t => !(timeMatch f t)) :=
        List.mem_filter.mpr ⟨hfm, hallt⟩
      rw [hemp] at this
      exact absurd this (List.not_mem_nil f)
    rw [List.all_eq_true] at this
    push_neg at this
    obtain ⟨t, htm, hmatch⟩ := this
    refine ⟨t, htm, ?_⟩
    cases hm : timeMatch f t with
    | true => rfl
    | false => exact absurd (by rw [hm]; rfl) hmatch

/-- C4.  check_model_quality returns failure (false) when any of the three
analytical tables has zero rows, returns failure when some fact row's
arrival (year, month) has no dim_time row with that same (year, month),
and returns success (true) otherwise: success holds exactly when all three
tables are non-empty and every fact row's arrival month is covered. -/
theorem spec_C4 (fact : List FactRow) (cities : List CityRow) (time : List TimeRow) :
    checkModelQuality fact cities time = true ↔
      (fact ≠ [] ∧ cities ≠ [] ∧ time ≠ []
        ∧ ∀ f ∈ fact, ∃ t ∈ time, timeMatch f t = true) :=
  checkQualityTrueIff fact cities time

/-- Witness for C4: a concrete model where all three tables are non-empty
and the fact row's arrival month is covered, so the gate passes. -/
theorem spec_C4_witness :
    checkModelQuality [c4FactRow] [c4CityRow] [timeRowOf (some 16892)] = true :=
  (spec_C4 [c4FactRow] [c4CityRow] [timeRowOf (some 16892)]).mpr
    ⟨by decide, by decide, by decide, by decide⟩

/-- C5.  If the quality gate fails, build_data_model produces no analytical
output (none of the three tables is written); if the gate passes, all
three tables are produced together — all three land or none do. -/
theorem spec_C5 (i94 : List I94SourceRow) (demo : List DemoPivotRow)
    (weather : List WeatherPreRow) (airports : List AirportRow) :
    (checkModelQuality (factTable i94 weather) (dimCities demo airports)
        (dimTime i94 weather) = false →
      buildDataModel i94 demo weather airports = none
        ∧ writtenAnalyticsTables (buildDataModel i94 demo weather airports) = [])
    ∧ (checkModelQuality (factTable i94 weather) (dimCities demo airports)
        (dimTime i94 weather) = true →
      buildDataModel i94 demo weather airports
          = some ⟨factTable i94 weather, dimCities demo airports, dimTime i94 weather⟩
        ∧ writtenAnalyticsTables (buildDataModel i94 demo weather airports)
          = ["fact_i94_history", "dim_cities", "dim_time"]) := by
  unfold buildDataModel
  constructor
  · intro h
    rw [h]
    exact ⟨rfl, rfl⟩
  · intro h
    rw [h]
    exact ⟨rfl, rfl⟩

/-- Witness for C5: on empty inputs the gate fails (the fact table is
empty) and no analytical table is written. -/
theorem spec_C5_witness :
    checkModelQuality (factTable [] []) (dimCities [] []) (dimTime [] []) = false
      ∧ buildDataModel [] [] [] [] = none
      ∧ writtenAnalyticsTables (buildDataModel [] [] [] []) = [] := by
  refine ⟨by decide, ?_⟩
  have h := (spec_C5 [] [] [] []).1 (by decide)
  exact h

/-- C6.  Every row of the preprocessed i94 table has non-null id,
state_of_entry_code, city_of_entry and arr_date and satisfies
dep_date IS NULL OR dep_date >= arr_date; exact duplicate rows are
removed (the table is duplicate-free); and two surviving rows may still
share the same id, so uniqueness of id alone is not enforced. -/
theorem spec_C6 :
    (∀ (src : List I94SourceRow), ∀ r ∈ i94Preprocessed src,
        r.id.isSome = true ∧ r.state_of_entry_code.isSome = true
          ∧ r.city_of_entry.isSome = true ∧ r.arr_date.isSome = true
          ∧ (r.dep_date = none
              ∨ ∃ a d, r.arr_date = some a ∧ r.dep_date = some d ∧ a ≤ d))
      ∧ (∀ src : List I94SourceRow, (i94Preprocessed src).Nodup)
      ∧ (∃ src : List I94SourceRow, ∃ r1 r2 : I94SourceRow, r1 ∈ i94Preprocessed src
          ∧ r2 ∈ i94Preprocessed src ∧ r1 ≠ r2 ∧ r1.id = r2.id) := by
  refine ⟨?_, ?_, ?_⟩
  · intro src r hr
    unfold i94Preprocessed at hr
    rw [List.mem_dedup, List.mem_filter] at hr
    obtain ⟨_, hcond⟩ := hr
    unfold cleanCondI94 at hcond
    simp only [Bool.and_eq_true, Bool.or_eq_true] at hcond
    obtain ⟨⟨⟨⟨h1, h2⟩, h3⟩, h4⟩, h5⟩ := hcond
    refine ⟨h1, h2, h3, h4, ?_⟩
    cases hdep : r.dep_date with
    | none => exact Or.inl rfl
    | some d =>
        right
        rcases h5 with h5 | h5
        · rw [hdep] at h5
          exact absurd h5 (by simp)
        · cases harr : r.arr_date with
          | none =>
              rw [harr, hdep] at h5
              exact absurd h5 (by simp [optLe])
          | some a =>
              rw [harr, hdep] at h5
              refine ⟨a, d, rfl, rfl, ?_⟩
              simpa [optLe] using h5
  · intro src
    exact List.nodup_dedup _
  · exact ⟨[c6RowA, c6RowB], c6RowA, c6RowB, by decide, by decide, by decide, rfl⟩

/-- Witness for C6: the invariant conclusions evaluated on a concrete
preprocessed row (arrival day 16892, departure day 16900). -/
theorem spec_C6_witness :
    c6Row ∈ i94Preprocessed [c6Row]
      ∧ (c6Row.id.isSome = true ∧ c6Row.state_of_entry_code.isSome = true
          ∧ c6Row.city_of_entry.isSome = true ∧ c6Row.arr_date.isSome = true
          ∧ (c6Row.dep_date = none
              ∨ ∃ a d, c6Row.arr_date = some a ∧ c6Row.dep_date = some d ∧ a ≤ d)) :=
  ⟨by decide, spec_C6.1 [c6Row] c6Row (by decide)⟩

/-- C7.  For every conformed fact row, the decoded arrival date equals the
fixed epoch 1960-01-01 plus the raw day offset, and likewise for the
departure date; a null offset yields a null date. -/
theorem spec_C7 (raws : List RawI94) (countries : List CountryRef) (ports : List PortRef)
    (modes : List ModeRef) (visas : List VisaRef) (states : List StateRef) :
    ∀ r ∈ i94SourceTable raws countries ports modes visas states,
      ∃ i ∈ raws, r.arr_date = i.arrdate.map (fun n => epoch1960 + n)
        ∧ r.dep_date = i.depdate.map (fun n => epoch1960 + n) := by
  intro r hr
  unfold i94SourceTable at hr
  simp only [List.mem_flatMap] at hr
  obtain ⟨i, hi, hr⟩ := hr
  obtain ⟨c1, _, hr⟩ := hr
  obtain ⟨c2, _, hr⟩ := hr
  obtain ⟨p, _, hr⟩ := hr
  obtain ⟨m, _, hr⟩ := hr
  obtain ⟨v, _, hr⟩ := hr
  obtain ⟨s, _, hr⟩ := hr
  by_cases hc : joinCondI94 i c1 c2 p m v s = true
  · rw [if_pos hc] at hr
    rw [List.mem_singleton] at hr
    subst hr
    exact ⟨i, hi, rfl, rfl⟩
  · rw [if_neg hc] at hr
    exact absurd hr (List.not_mem_nil r)

/-- Witness for C7: a concrete raw record with arrival offset 20600 and a
null departure offset, pushed through the conformance join. -/
theorem spec_C7_witness :
    conformI94 c7Raw c7Country c7Country c7Port c7Mode c7Visa c7State
        ∈ i94SourceTable [c7Raw] [c7Country] [c7Port] [c7Mode] [c7Visa] [c7State]
      ∧ ∃ i ∈ [c7Raw],
          (conformI94 c7Raw c7Country c7Country c7Port c7Mode c7Visa c7State).arr_date
              = i.arrdate.map (fun n => epoch1960 + n)
            ∧ (conformI94 c7Raw c7Country c7Country c7Port c7Mode c7Visa c7State).dep_date
              = i.depdate.map (fun n => epoch1960 + n) :=
  ⟨by decide,
    spec_C7 [c7Raw] [c7Country] [c7Port] [c7Mode] [c7Visa] [c7State] _ (by decide)⟩

/-- C3.  dim_time consists of exactly the distinct dates in the union of
fact arrival dates, non-null fact departure dates and weather observation
dates: the table is duplicate-free, no two rows carry the same date, and a
row is in the table exactly when it is some union date decorated with the
calendar fields derived from it. -/
theorem spec_C3 (i94 : List I94SourceRow) (w : List WeatherPreRow) :
    (dimTime i94 w).Nodup
      ∧ ((dimTime i94 w).map (fun t => t.dt)).Nodup
      ∧ (∀ t : TimeRow, t ∈ dimTime i94 w ↔
          ∃ o : Option Int,
            (o ∈ i94.map (fun i => i.arr_date)
              ∨ o ∈ (i94.filter (fun i => i.dep_date.isSome)).map (fun i => i.dep_date)
              ∨ o ∈ w.map (fun r => r.dt))
            ∧ t = timeRowOf o) := by
  have hmem : ∀ t : TimeRow, t ∈ dimTime i94 w ↔
      ∃ o : Option Int,
        (o ∈ i94.map (fun i => i.arr_date)
          ∨ o ∈ (i94.filter (fun i => i.dep_date.isSome)).map (fun i => i.dep_date)
          ∨ o ∈ w.map (fun r => r.dt))
        ∧ t = timeRowOf o := by
    intro t
    simp only [dimTime, List.mem_dedup, List.mem_append, List.mem_map, List.mem_filter]
    constructor
    · rintro ((⟨i, hi, ht⟩ | ⟨i, ⟨hi, hdep⟩, ht⟩) | ⟨r, hr, ht⟩)
      · exact ⟨i.arr_date, Or.inl ⟨i, hi, rfl⟩, ht.symm⟩
      · exact ⟨i.dep_date, Or.inr (Or.inl ⟨i, ⟨hi, hdep⟩, rfl⟩), ht.symm⟩
      · exact ⟨r.dt, Or.inr (Or.inr ⟨r, hr, rfl⟩), ht.symm⟩
    · rintro ⟨o, hsrc, ht⟩
      rcases hsrc with ⟨i, hi, ho⟩ | ⟨i, ⟨hi, hdep⟩, ho⟩ | ⟨r, hr, ho⟩
      · exact Or.inl (Or.inl ⟨i, hi, by rw [ho, ← ht]⟩)
      · exact Or.inl (Or.inr ⟨i, ⟨hi, hdep⟩, by rw [ho, ← ht]⟩)
      · exact Or.inr ⟨r, hr, by rw [ho, ← ht]⟩
  have hnd : (dimTime i94 w).Nodup := by
    unfold dimTime
    exact List.nodup_dedup _
  refine ⟨hnd, ?_, hmem⟩
  refine List.Nodup.map_on ?_ hnd
  intro x hx y hy hxy
  obtain ⟨o1, _, hx'⟩ := (hmem x).mp hx
  obtain ⟨o2, _, hy'⟩ := (hmem y).mp hy
  subst hx'
  subst hy'
  have ho : o1 = o2 := hxy
  rw [ho]

/-- Witness for C3: on a concrete run the time dimension is duplicate-free
and contains the event's departure date. -/
theorem spec_C3_witness :
    (dimTime [c3Row] [c3W]).Nodup
      ∧ timeRowOf (some 200) ∈ dimTime [c3Row] [c3W] :=
  ⟨(spec_C3 [c3Row] [c3W]).1,
    ((spec_C3 [c3Row] [c3W]).2.2 (timeRowOf (some 200))).mpr
      ⟨some 200, by decide, rfl⟩⟩

/-- factRowsFor as an if-then-else, convenient for case analysis. -/
theorem factRowsFor_eq (wpre : List WeatherPreRow) (fb : FactBaseRow) :
    factRowsFor wpre fb =
      if wpre.filter (factWeatherMatch fb) = [] then [mkFactRow fb none]
      else (wpre.filter (factWeatherMatch fb)).map fun w => mkFactRow fb w.avg_temperature := by
  unfold factRowsFor
  cases wpre.filter (factWeatherMatch fb) with
  | nil => simp
  | cons a l => simp

/-- Every fact row a single event produces keeps that event's arrival date. -/
theorem factRowsFor_arr {wpre : List WeatherPreRow} {fb : FactBaseRow} {f : FactRow}
    (hf : f ∈ factRowsFor wpre fb) : f.arr_date = fb.arr_date := by
  rw [factRowsFor_eq] at hf
  split_ifs at hf with h
  · rw [List.mem_singleton] at hf
    subst hf
    rfl
  · rw [List.mem_map] at hf
    obtain ⟨w, _, hw⟩ := hf
    rw [← hw]
    rfl

/-- A LEFT JOIN always yields at least one row per left row. -/
theorem factRowsFor_ne_nil (wpre : List WeatherPreRow) (fb : FactBaseRow) :
    factRowsFor wpre fb ≠ [] := by
  rw [factRowsFor_eq]
  split_ifs with h
  · simp
  · simp [h]

theorem mem_factTable_iff {i94 : List I94SourceRow} {wpre : List WeatherPreRow}
    {f : FactRow} :
    f ∈ factTable i94 wpre ↔ ∃ i ∈ i94, f ∈ factRowsFor wpre (factBaseRow i) := by
  simp only [factTable, factBase, List.mem_flatMap, List.mem_map]
  constructor
  · rintro ⟨fb, ⟨i, hi, rfl⟩, hmem⟩
    exact ⟨i, hi, hmem⟩
  · rintro ⟨i, hi, hmem⟩
    exact ⟨factBaseRow i, ⟨i, hi, rfl⟩, hmem⟩

theorem factTable_ne_nil {i94 : List I94SourceRow} (wpre : List WeatherPreRow)
    (h : i94 ≠ []) : factTable i94 wpre ≠ [] := by
  cases i94 with
  | nil => exact absurd rfl h
  | cons i t =>
      intro hcon
      unfold factTable factBase at hcon
      rw [List.map_cons, List.flatMap_cons] at hcon
      obtain ⟨h1, _⟩ := List.append_eq_nil.mp hcon
      exact factRowsFor_ne_nil wpre (factBaseRow i) h1

theorem dimTime_ne_nil {i94 : List I94SourceRow} (w : List WeatherPreRow)
    (h : i94 ≠ []) : dimTime i94 w ≠ [] := by
  intro hcon
  unfold dimTime at hcon
  rw [List.dedup_eq_nil, List.append_eq_nil] at hcon
  obtain ⟨h1, _⟩ := hcon
  rw [List.append_eq_nil] at h1
  obtain ⟨h2, _⟩ := h1
  rw [List.dedup_eq_nil, List.map_eq_nil_iff] at h2
  exact h h2

/-- The arrival date of every event appears as a dim_time row. -/
theorem timeRow_arr_mem_dimTime {i94 : List I94SourceRow} (w : List WeatherPreRow)
    {i : I94SourceRow} (hi : i ∈ i94) : timeRowOf i.arr_date ∈ dimTime i94 w := by
  unfold dimTime
  rw [List.mem_dedup]
  apply List.mem_append_left
  apply List.mem_append_left
  rw [List.mem_dedup]
  exact List.mem_map_of_mem _ hi

/-- Every row surviving the i94 cleaning has a non-null arrival date. -/
theorem i94Pre_arr_isSome {src : List I94SourceRow} {r : I94SourceRow}
    (hr : r ∈ i94Preprocessed src) : r.arr_date.isSome = true := by
  unfold i94Preprocessed at hr
  rw [List.mem_dedup, List.mem_filter] at hr
  obtain ⟨_, hcond⟩ := hr
  unfold cleanCondI94 at hcond
  simp only [Bool.and_eq_true] at hcond
  exact hcond.1.2

/-- C10.  When dim_time and fact_i94_history are built from the same
cleaned fact table, every fact row's arrival date itself appears in
dim_time (arrival dates being one branch of the union, non-null after
cleaning), so the gate's (year, month) coverage check always finds a
matching dim_time row; hence, the other two tables being non-empty, the
gate can only pass — it can fail only through an empty table, never
through a date-coverage gap. -/
theorem spec_C10 (src : List I94SourceRow) (demo : List DemoPivotRow)
    (weather : List WeatherPreRow) (airports : List AirportRow)
    (hfact : i94Preprocessed src ≠ [])
    (hcities : dimCities demo airports ≠ []) :
    (∀ f ∈ factTable (i94Preprocessed src) weather,
        ∃ t ∈ dimTime (i94Preprocessed src) weather, t.dt = f.arr_date)
      ∧ checkModelQuality (factTable (i94Preprocessed src) weather)
          (dimCities demo airports) (dimTime (i94Preprocessed src) weather) = true := by
  have hcover : ∀ f ∈ factTable (i94Preprocessed src) weather,
      ∃ i ∈ i94Preprocessed src, f.arr_date = i.arr_date := by
    intro f hf
    obtain ⟨i, hi, hmem⟩ := mem_factTable_iff.mp hf
    exact ⟨i, hi, factRowsFor_arr hmem⟩
  constructor
  · intro f hf
    obtain ⟨i, hi, harr⟩ := hcover f hf
    refine ⟨timeRowOf i.arr_date, timeRow_arr_mem_dimTime weather hi, ?_⟩
    rw [harr]
    rfl
  · apply (checkQualityTrueIff _ _ _).mpr
    refine ⟨factTable_ne_nil weather hfact, hcities, dimTime_ne_nil weather hfact, ?_⟩
    intro f hf
    obtain ⟨i, hi, harr⟩ := hcover f hf
    obtain ⟨a, ha⟩ := Option.isSome_iff_exists.mp (i94Pre_arr_isSome hi)
    refine ⟨timeRowOf i.arr_date, timeRow_arr_mem_dimTime weather hi, ?_⟩
    unfold timeMatch
    rw [harr, ha]
    show (optEq ((some a).map yearOf) (((timeRowOf (some a)).dt).map yearOf)
      && optEq ((some a).map monthOf) (((timeRowOf (some a)).dt).map monthOf)) = true
    simp [timeRowOf, optEq]

/-- Witness for C10: a concrete run with one cleaned event and one city
row, where the gate passes. -/
theorem spec_C10_witness :
    (i94Preprocessed [c10Row] ≠ [] ∧ dimCities [c10Demo] [] ≠ [])
      ∧ checkModelQuality (factTable (i94Preprocessed [c10Row]) [])
          (dimCities [c10Demo] []) (dimTime (i94Preprocessed [c10Row]) []) = true :=
  ⟨⟨by decide, by decide⟩,
    (spec_C10 [c10Row] [c10Demo] [] [] (by decide) (by decide)).2⟩

theorem optEq_isSome_self {α : Type} [DecidableEq α] {o : Option α}
    (h : o.isSome = true) : optEq o o = true := by
  obtain ⟨x, hx⟩ := Option.isSome_iff_exists.mp h
  subst hx
  simp [optEq]

theorem weatherCleaned_cond {w : List WeatherSourceRow} {obs : WeatherSourceRow}
    (h : obs ∈ weatherCleaned w) : weatherCleanCond obs = true := by
  unfold weatherCleaned at h
  rw [List.mem_dedup, List.mem_filter] at h
  exact h.2

theorem mem_tmpLocState_iff {w : List WeatherSourceRow} {a : List AirportRow}
    {l : LocStateRow} :
    l ∈ tmpLocState w a ↔ ∃ loc ∈ tmpLoc w, ∃ ap ∈ airportsPre a,
      (distLt1 loc.lat loc.lon ap.lat ap.lon && optEq loc.city ap.municipality) = true
        ∧ l = LocStateRow.mk loc.city ap.iso_region loc.lat loc.lon := by
  unfold tmpLocState
  rw [List.mem_dedup, List.mem_flatMap]
  constructor
  · rintro ⟨loc, hloc, hl⟩
    rw [List.mem_filterMap] at hl
    obtain ⟨ap, hap, heq⟩ := hl
    by_cases hc : (distLt1 loc.lat loc.lon ap.lat ap.lon
        && optEq loc.city ap.municipality) = true
    · rw [if_pos hc] at heq
      exact ⟨loc, hloc, ap, hap, hc, (Option.some.inj heq).symm⟩
    · rw [if_neg hc] at heq
      exact absurd heq (by simp)
  · rintro ⟨loc, hloc, ap, hap, hc, rfl⟩
    refine ⟨loc, hloc, ?_⟩
    rw [List.mem_filterMap]
    exact ⟨ap, hap, by rw [if_pos hc]⟩

theorem mem_weatherJoined_elim {w : List WeatherSourceRow} {a : List AirportRow}
    {p : WeatherSourceRow × LocStateRow} (hp : p ∈ weatherJoined w a) :
    p.1 ∈ weatherCleaned w ∧ p.2 ∈ tmpLocState w a
      ∧ (optEq p.1.city p.2.city && optEq p.1.lat p.2.lat
          && optEq p.1.lon p.2.lon) = true := by
  unfold weatherJoined at hp
  rw [List.mem_flatMap] at hp
  obtain ⟨r, hr, hp⟩ := hp
  rw [List.mem_filterMap] at hp
  obtain ⟨l, hl, heq⟩ := hp
  unfold joinWL at heq
  by_cases hc : (optEq r.city l.city && optEq r.lat l.lat && optEq r.lon l.lon) = true
  · rw [if_pos hc] at heq
    have hpe := Option.some.inj heq
    subst hpe
    exact ⟨hr, hl, hc⟩
  · rw [if_neg hc] at heq
    exact absurd heq (by simp)

theorem mem_weatherJoined_intro {w : List WeatherSourceRow} {a : List AirportRow}
    {r : WeatherSourceRow} {l : LocStateRow} (hr : r ∈ weatherCleaned w)
    (hl : l ∈ tmpLocState w a)
    (hc : (optEq r.city l.city && optEq r.lat l.lat && optEq r.lon l.lon) = true) :
    (r, l) ∈ weatherJoined w a := by
  unfold weatherJoined
  rw [List.mem_flatMap]
  exact ⟨r, hr, List.mem_filterMap.mpr ⟨l, hl, by unfold joinWL; rw [if_pos hc]⟩⟩

theorem mem_weatherPre_iff {w : List WeatherSourceRow} {a : List AirportRow}
    {r : WeatherPreRow} :
    r ∈ weatherPre w a ↔ ∃ k ∈ ((weatherJoined w a).map wKey).dedup,
      r = weatherGroupRow (weatherJoined w a) k := by
  unfold weatherPre
  rw [List.mem_map]
  constructor
  · rintro ⟨k, hk, hr⟩
    exact ⟨k, hk, hr.symm⟩
  · rintro ⟨k, hk, hr⟩
    exact ⟨k, hk, hr.symm⟩

/-- C8.  A weather observation survives into the preprocessed weather
table exactly when its (city, lat, lon) has at least one retained airport
record with the same municipality name at Euclidean degree distance below
1.0; and on the concrete 0.5-versus-2.0-degree configuration (c8W, c8A)
the observation receives only the closer airport's region CA, not the
far airport's NV. -/
theorem spec_C8 :
    (∀ (w : List WeatherSourceRow) (a : List AirportRow), ∀ obs ∈ weatherCleaned w,
        ((∃ r ∈ weatherPre w a, r.dt = obs.dt ∧ r.city = obs.city
            ∧ r.lat = obs.lat ∧ r.lon = obs.lon)
          ↔ ∃ ap ∈ airportsPre a, optEq obs.city ap.municipality = true
              ∧ distLt1 obs.lat obs.lon ap.lat ap.lon = true))
      ∧ (weatherPre c8W c8A).map (fun r => r.state) = [some "CA"] := by
  constructor
  · intro w a obs hobs
    constructor
    · rintro ⟨r, hr, hdt, hcity, hlat, hlon⟩
      obtain ⟨k, hk, rfl⟩ := mem_weatherPre_iff.mp hr
      rw [List.mem_dedup, List.mem_map] at hk
      obtain ⟨p, hp, hkey⟩ := hk
      obtain ⟨hp1, hp2, hpc⟩ := mem_weatherJoined_elim hp
      obtain ⟨loc, hloc, ap, hap, hcond2, hp2eq⟩ := mem_tmpLocState_iff.mp hp2
      subst hkey
      simp only [Bool.and_eq_true] at hpc hcond2
      obtain ⟨⟨hc1, hc2⟩, hc3⟩ := hpc
      obtain ⟨hd1, hd2⟩ := hcond2
      have hcity' : p.1.city = obs.city := hcity
      have hlat' : p.1.lat = obs.lat := hlat
      have hlon' : p.1.lon = obs.lon := hlon
      have e1 : p.2.city = loc.city := by rw [hp2eq]
      have e2 : p.2.lat = loc.lat := by rw [hp2eq]
      have e3 : p.2.lon = loc.lon := by rw [hp2eq]
      obtain ⟨cx, hcx1, hcx2⟩ := optEq_true_iff.mp hc1
      obtain ⟨lx, hlx1, hlx2⟩ := optEq_true_iff.mp hc2
      obtain ⟨ox, hox1, hox2⟩ := optEq_true_iff.mp hc3
      have hloceq : loc.city = obs.city := by
        rw [← e1, hcx2, ← hcx1]
        exact hcity'
      have hlateq : loc.lat = obs.lat := by
        rw [← e2, hlx2, ← hlx1]
        exact hlat'
      have hloneq : loc.lon = obs.lon := by
        rw [← e3, hox2, ← hox1]
        exact hlon'
      refine ⟨ap, hap, ?_, ?_⟩
      · rw [← hloceq]
        exact hd2
      · rw [← hlateq, ← hloneq]
        exact hd1
    · rintro ⟨ap, hap, hmun, hdist⟩
      have hcond := weatherCleaned_cond hobs
      simp only [weatherCleanCond, Bool.and_eq_true] at hcond
      obtain ⟨⟨⟨⟨htemp, hdts⟩, hcitys⟩, hlats⟩, hlons⟩ := hcond
      have hloc : LocRow.mk obs.city obs.lat obs.lon ∈ tmpLoc w := by
        unfold tmpLoc
        rw [List.mem_dedup]
        exact List.mem_map_of_mem _ hobs
      have hl : LocStateRow.mk obs.city ap.iso_region obs.lat obs.lon ∈ tmpLocState w a :=
        mem_tmpLocState_iff.mpr ⟨LocRow.mk obs.city obs.lat obs.lon, hloc, ap, hap,
          by simp only [Bool.and_eq_true]; exact ⟨hdist, hmun⟩, rfl⟩
      have hjoin : (obs, LocStateRow.mk obs.city ap.iso_region obs.lat obs.lon)
          ∈ weatherJoined w a := by
        apply mem_weatherJoined_intro hobs hl
        simp only [Bool.and_eq_true]
        exact ⟨⟨optEq_isSome_self hcitys, optEq_isSome_self hlats⟩,
          optEq_isSome_self hlons⟩
      refine ⟨weatherGroupRow (weatherJoined w a)
          (wKey (obs, LocStateRow.mk obs.city ap.iso_region obs.lat obs.lon)),
        mem_weatherPre_iff.mpr
          ⟨wKey (obs, LocStateRow.mk obs.city ap.iso_region obs.lat obs.lon),
            ?_, rfl⟩, rfl, rfl, rfl, rfl⟩
      rw [List.mem_dedup]
      exact List.mem_map_of_mem _ hjoin
  · decide

/-- Witness for C8: the concrete observation is cleaned-surviving, and the
survival criterion instantiates to it. -/
theorem spec_C8_witness :
    c8Obs ∈ weatherCleaned c8W
      ∧ ((∃ r ∈ weatherPre c8W c8A, r.dt = c8Obs.dt ∧ r.city = c8Obs.city
            ∧ r.lat = c8Obs.lat ∧ r.lon = c8Obs.lon)
          ↔ ∃ ap ∈ airportsPre c8A, optEq c8Obs.city ap.municipality = true
              ∧ distLt1 c8Obs.lat c8Obs.lon ap.lat ap.lon = true) :=
  ⟨by decide, spec_C8.1 c8W c8A c8Obs (by decide)⟩

/-- C9.  The weather-to-region join and final aggregation are invariant
under permutation of the input weather table: permuted inputs produce
permuted outputs (in particular the same set of (date, city, region, lat,
lon) groups with equal exact averaged temperatures). -/
theorem spec_C9 (a : List AirportRow) (w1 w2 : List WeatherSourceRow)
    (hperm : w1.Perm w2) : (weatherPre w1 a).Perm (weatherPre w2 a) := by
  have hc : (weatherCleaned w1).Perm (weatherCleaned w2) := (hperm.filter _).dedup
  have hloc : (tmpLoc w1).Perm (tmpLoc w2) := (hc.map _).dedup
  have hlocst : (tmpLocState w1 a).Perm (tmpLocState w2 a) := by
    unfold tmpLocState
    exact (List.Perm.flatMap_right _ hloc).dedup
  have hj : (weatherJoined w1 a).Perm (weatherJoined w2 a) := by
    unfold weatherJoined
    have step1 : ((weatherCleaned w1).flatMap fun r =>
          (tmpLocState w1 a).filterMap (joinWL r)).Perm
        ((weatherCleaned w1).flatMap fun r =>
          (tmpLocState w2 a).filterMap (joinWL r)) :=
      List.Perm.flatMap_left _ (fun r _ => hlocst.filterMap (joinWL r))
    have step2 : ((weatherCleaned w1).flatMap fun r =>
          (tmpLocState w2 a).filterMap (joinWL r)).Perm
        ((weatherCleaned w2).flatMap fun r =>
          (tmpLocState w2 a).filterMap (joinWL r)) :=
      List.Perm.flatMap_right _ hc
    exact step1.trans step2
  have hrow : ∀ k, weatherGroupRow (weatherJoined w1 a) k
      = weatherGroupRow (weatherJoined w2 a) k := by
    intro k
    have hfil : ((weatherJoined w1 a).filter fun p => decide (wKey p = k)).Perm
        ((weatherJoined w2 a).filter fun p => decide (wKey p = k)) := hj.filter _
    have htemps := hfil.filterMap (fun p => p.1.avg_temperature)
    simp only [weatherGroupRow]
    rw [avgOf_perm htemps]
  have hkeys : (((weatherJoined w1 a).map wKey).dedup).Perm
      (((weatherJoined w2 a).map wKey).dedup) := (hj.map _).dedup
  unfold weatherPre
  have h1 : ((((weatherJoined w1 a).map wKey).dedup).map
        (weatherGroupRow (weatherJoined w1 a))).Perm
      ((((weatherJoined w2 a).map wKey).dedup).map
        (weatherGroupRow (weatherJoined w1 a))) := hkeys.map _
  have h2 : (((weatherJoined w2 a).map wKey).dedup).map
        (weatherGroupRow (weatherJoined w1 a))
      = (((weatherJoined w2 a).map wKey).dedup).map
        (weatherGroupRow (weatherJoined w2 a)) :=
    List.map_congr_left (fun k _ => hrow k)
  rw [← h2]
  exact h1

/-- Witness for C9: two concrete two-row weather tables that are reverses
of each other give permuted preprocessed outputs. -/
theorem spec_C9_witness :
    c9W1.Perm c9W2 ∧ (weatherPre c9W1 c9A).Perm (weatherPre c9W2 c9A) :=
  ⟨by decide, spec_C9 c9A c9W1 c9W2 (by decide)⟩

/-- Counterexample to C1 as stated: one cleaned travel event whose entry
city has two weather observations in the same month (the same city name at
two nearby coordinate pairs, both within 1.0 degree of the same
same-municipality airport and hence both assigned state CA).  The
aggregation keys include latitude and longitude, so both survive as
separate weather rows with equal (city, state, year, month); the fact
left join then matches both and duplicates the single event into two fact
rows. -/
theorem spec_C1_counterexample :
    (i94Preprocessed c1I94).length = 1
      ∧ (weatherPre c1W c1A).length = 2
      ∧ (factTable (i94Preprocessed c1I94) (weatherPre c1W c1A)).length = 2 := by
  refine ⟨by decide, by decide, by decide⟩

theorem filterLengthLeOne {α : Type} {R : α → α → Prop} {p : α → Bool} {l : List α}
    (hpair : List.Pairwise (fun x y => ¬ R x y) l)
    (hrel : ∀ x y, p x = true → p y = true → R x y) :
    (l.filter p).length ≤ 1 := by
  induction l with
  | nil => simp
  | cons a t ih =>
      obtain ⟨ha, ht⟩ := List.pairwise_cons.mp hpair
      by_cases hpa : p a = true
      · rw [List.filter_cons_of_pos hpa]
        have hemp : t.filter p = [] := by
          rcases hx : t.filter p with _ | ⟨b, bs⟩
          · rfl
          · exfalso
            have hb : b ∈ t.filter p := by
              rw [hx]
              exact List.mem_cons_self b bs
            rw [List.mem_filter] at hb
            exact ha b hb.1 (hrel a b hpa hb.2)
        rw [hemp]
        rfl
      · rw [List.filter_cons_of_neg hpa]
        exact ih ht

/-- Two weather rows matched by the same event share the join key. -/
theorem matchKeysEq {fb : FactBaseRow} {x y : WeatherPreRow}
    (hx : factWeatherMatch fb x = true) (hy : factWeatherMatch fb y = true) :
    x.city = y.city ∧ x.state = y.state ∧ x.dt.map yearOf = y.dt.map yearOf
      ∧ x.dt.map monthOf = y.dt.map monthOf := by
  unfold factWeatherMatch at hx hy
  simp only [Bool.and_eq_true] at hx hy
  obtain ⟨⟨⟨hx1, hx2⟩, hx3⟩, hx4⟩ := hx
  obtain ⟨⟨⟨hy1, hy2⟩, hy3⟩, hy4⟩ := hy
  refine ⟨?_, ?_, ?_, ?_⟩
  · obtain ⟨u, hu1, hu2⟩ := optEq_true_iff.mp hx3
    obtain ⟨v, hv1, hv2⟩ := optEq_true_iff.mp hy3
    have huv : u = v := Option.some.inj (hu1.symm.trans hv1)
    rw [hu2, hv2, huv]
  · obtain ⟨u, hu1, hu2⟩ := optEq_true_iff.mp hx4
    obtain ⟨v, hv1, hv2⟩ := optEq_true_iff.mp hy4
    have huv : u = v := Option.some.inj (hu1.symm.trans hv1)
    rw [hu2, hv2, huv]
  · obtain ⟨u, hu1, hu2⟩ := optEq_true_iff.mp hx1
    obtain ⟨v, hv1, hv2⟩ := optEq_true_iff.mp hy1
    have huv : u = v := Option.some.inj (hu1.symm.trans hv1)
    rw [hu2, hv2, huv]
  · obtain ⟨u, hu1, hu2⟩ := optEq_true_iff.mp hx2
    obtain ⟨v, hv1, hv2⟩ := optEq_true_iff.mp hy2
    have huv : u = v := Option.some.inj (hu1.symm.trans hv1)
    rw [hu2, hv2, huv]

theorem factRowsForLengthOne {wpre : List WeatherPreRow} {fb : FactBaseRow}
    (h : (wpre.filter (factWeatherMatch fb)).length ≤ 1) :
    (factRowsFor wpre fb).length = 1 := by
  rw [factRowsFor_eq]
  split_ifs with hnil
  · rfl
  · rw [List.length_map]
    have hpos : (wpre.filter (factWeatherMatch fb)).length ≠ 0 := by
      intro h0
      exact hnil (List.length_eq_zero.mp h0)
    omega

/-- C1 amended: the fact table has exactly one row per cleaned travel
event provided the aggregated weather table has pairwise-distinct
(city, state, arrival-year, arrival-month) join keys — then the left join
matches at most one weather row per event and never duplicates an event.
The weather aggregation alone does not guarantee this key uniqueness: its
group key also carries the observation date, latitude and longitude (see
spec_C1_counterexample), and an event is then duplicated once per
matching weather row. -/
theorem spec_C1 (i94 : List I94SourceRow) (wpre : List WeatherPreRow)
    (huniq : List.Pairwise factWeatherKeyDistinct wpre) :
    (factTable i94 wpre).length = i94.length := by
  induction i94 with
  | nil => rfl
  | cons i t ih =>
      have h1 : (factRowsFor wpre (factBaseRow i)).length = 1 :=
        factRowsForLengthOne
          (filterLengthLeOne huniq (fun x y hx hy => matchKeysEq hx hy))
      calc (factTable (i :: t) wpre).length
          = (factRowsFor wpre (factBaseRow i)).length + (factTable t wpre).length := by
            unfold factTable factBase
            rw [List.map_cons, List.flatMap_cons, List.length_append]
        _ = 1 + t.length := by rw [h1, ih]
        _ = (i :: t).length := by
            rw [List.length_cons]
            omega

/-- Witness for the amended C1: a weather table with a single aggregated
row (hence trivially unique keys) yields exactly one fact row for the one
cleaned event. -/
theorem spec_C1_witness :
    List.Pairwise factWeatherKeyDistinct (weatherPre [c1Obs1] c1A)
      ∧ (factTable (i94Preprocessed c1I94) (weatherPre [c1Obs1] c1A)).length
        = (i94Preprocessed c1I94).length :=
  ⟨by decide, spec_C1 (i94Preprocessed c1I94) (weatherPre [c1Obs1] c1A) (by decide)⟩

theorem optChoices_exists_mem {α : Type} (l : List α) : ∃ x, x ∈ optChoices l := by
  cases l with
  | nil => exact ⟨none, by simp [optChoices]⟩
  | cons a t => exact ⟨some a, by simp [optChoices]⟩

theorem nodupAllEqLength {α : Type} {l : List α} (hnd : l.Nodup) (hne : l ≠ [])
    (hall : ∀ x ∈ l, ∀ y ∈ l, x = y) : l.length = 1 := by
  cases l with
  | nil => exact absurd rfl hne
  | cons a t =>
      cases t with
      | nil => rfl
      | cons b t2 =>
          exfalso
          have hab : a = b := hall a (by simp) b (by simp)
          have hnin : a ∉ b :: t2 := (List.nodup_cons.mp hnd).1
          exact hnin (by rw [hab]; simp)

/-- For a base row carrying the pair (c, s), the per-race subquery rows it
joins against are exactly the pair's rows with that race label. -/
theorem raceMatches_pair {src : List DemoRow} {cr : DemoRow} {c s : String}
    (hc : cr.city = some c) (hs : cr.state = some s) (lbl : String) :
    raceMatches (demoFiltered src) lbl cr = catFilter src c s lbl := by
  unfold raceMatches catFilter
  apply List.filter_congr
  intro r _
  rw [hc, hs]
  cases hr1 : r.race <;> cases hr2 : r.city <;> cases hr3 : r.state <;>
    simp [optEq, eq_comm, Bool.and_assoc]

theorem mem_demoPivot_iff {src : List DemoRow} {o : DemoPivotRow} :
    o ∈ demoPivot src ↔
      ∃ cr ∈ demoFiltered src,
        ∃ m1 ∈ optChoices (raceMatches (demoFiltered src) raceLbl1 cr),
          ∃ m2 ∈ optChoices (raceMatches (demoFiltered src) raceLbl2 cr),
            ∃ m3 ∈ optChoices (raceMatches (demoFiltered src) raceLbl3 cr),
              ∃ m4 ∈ optChoices (raceMatches (demoFiltered src) raceLbl4 cr),
                ∃ m5 ∈ optChoices (raceMatches (demoFiltered src) raceLbl5 cr),
                  o = mkPivotRow cr m1 m2 m3 m4 m5 := by
  unfold demoPivot
  rw [List.mem_dedup]
  simp only [List.mem_flatMap, List.mem_singleton]

/-- Counterexample to C2 as stated: two source rows for the same
(city, state) pair that disagree on a non-category column (here
male_population 100 versus 200).  Each base row keeps its own copy of the
non-category columns while receiving the same category lookups, so the
pivoted table holds two rows for the pair, not exactly one. -/
theorem spec_C2_counterexample :
    ((demoPivot c2Bad).filter fun o =>
        decide (o.city = some "CHICAGO" ∧ o.state = some "ILLINOIS")).length = 2
      ∧ ((demoPivot c2Bad).filter fun o =>
        decide (o.city = some "CHICAGO" ∧ o.state = some "ILLINOIS")).length ≠ 1 := by
  refine ⟨by decide, by decide⟩

/-- C2 amended: for every demographics source after the null filter, and
every (city, state) pair present in it, the pivoted table contains exactly
one row for the pair and its five race-category columns equal the source's
count for each category (null when absent) — provided the pair's source
rows agree on all non-category columns and per-category counts (one count
per (city, state, race)); rows violating that agreement duplicate the
pair (see spec_C2_counterexample). -/
theorem spec_C2 (src : List DemoRow) (c s : String)
    (hpair : ∃ r ∈ demoFiltered src, r.city = some c ∧ r.state = some s)
    (hagree : ∀ r1 ∈ demoFiltered src, ∀ r2 ∈ demoFiltered src,
        r1.city = some c → r1.state = some s → r2.city = some c → r2.state = some s →
          nonRaceEq r1 r2 ∧ (r1.race = r2.race → r1.count = r2.count)) :
    ((demoPivot src).filter fun o => decide (o.city = some c ∧ o.state = some s)).length = 1
      ∧ ∀ o ∈ demoPivot src, o.city = some c → o.state = some s →
          o.american_indian_and_alaska_native = catCount src c s raceLbl1
            ∧ o.asian = catCount src c s raceLbl2
            ∧ o.white = catCount src c s raceLbl3
            ∧ o.hispanic_or_latino = catCount src c s raceLbl4
            ∧ o.black_or_african_american = catCount src c s raceLbl5 := by
  have hcount : ∀ lbl : String, ∀ m ∈ catFilter src c s lbl,
      m.count = catCount src c s lbl := by
    intro lbl m hm
    rcases hf : catFilter src c s lbl with _ | ⟨r0, rest⟩
    · rw [hf] at hm
      exact absurd hm (List.not_mem_nil m)
    · have hr0 : r0 ∈ catFilter src c s lbl := by
        rw [hf]
        exact List.mem_cons_self _ _
      have hmp := hm
      unfold catFilter at hmp hr0
      rw [List.mem_filter] at hmp hr0
      have hm2 := of_decide_eq_true hmp.2
      have hr02 := of_decide_eq_true hr0.2
      obtain ⟨hmrace, hmcity, hmstate⟩ := hm2
      obtain ⟨hrrace, hrcity, hrstate⟩ := hr02
      have heqc := (hagree m hmp.1 r0 hr0.1 hmcity hmstate hrcity hrstate).2
        (by rw [hmrace, hrrace])
      unfold catCount
      rw [hf, List.head?_cons]
      exact heqc
  have hcat : ∀ cr ∈ demoFiltered src, cr.city = some c → cr.state = some s →
      ∀ (lbl : String) (mi : Option DemoRow),
        mi ∈ optChoices (raceMatches (demoFiltered src) lbl cr) →
          mi.bind (fun r => r.count) = catCount src c s lbl := by
    intro cr _ hc hs lbl mi hmi
    rw [raceMatches_pair hc hs lbl] at hmi
    rcases mem_optChoices.mp hmi with ⟨hnil, rfl⟩ | ⟨m, hm, rfl⟩
    · show (none : Option DemoRow).bind (fun r => r.count) = catCount src c s lbl
      unfold catCount
      rw [hnil]
      rfl
    · exact hcount lbl m hm
  have heqrows : ∀ o1 ∈ demoPivot src, ∀ o2 ∈ demoPivot src,
      o1.city = some c → o1.state = some s → o2.city = some c → o2.state = some s →
        o1 = o2 := by
    intro o1 ho1 o2 ho2 h1c h1s h2c h2s
    obtain ⟨cr1, hcr1, m11, hm11, m12, hm12, m13, hm13, m14, hm14, m15, hm15, ho1e⟩ :=
      mem_demoPivot_iff.mp ho1
    obtain ⟨cr2, hcr2, m21, hm21, m22, hm22, m23, hm23, m24, hm24, m25, hm25, ho2e⟩ :=
      mem_demoPivot_iff.mp ho2
    rw [ho1e] at h1c h1s
    rw [ho2e] at h2c h2s
    have hnr := (hagree cr1 hcr1 cr2 hcr2 h1c h1s h2c h2s).1
    obtain ⟨e1, e2, e3, e4, e5, e6, e7, e8, e9, e10⟩ := hnr
    have hcat1 := hcat cr1 hcr1 h1c h1s
    have hcat2 := hcat cr2 hcr2 h2c h2s
    rw [ho1e, ho2e]
    unfold mkPivotRow
    simp only [DemoPivotRow.mk.injEq]
    refine ⟨e1, e2, e3, e4, e5, e6, e7, e8, e9, e10, ?_, ?_, ?_, ?_, ?_⟩
    · rw [hcat1 raceLbl1 m11 hm11, hcat2 raceLbl1 m21 hm21]
    · rw [hcat1 raceLbl2 m12 hm12, hcat2 raceLbl2 m22 hm22]
    · rw [hcat1 raceLbl3 m13 hm13, hcat2 raceLbl3 m23 hm23]
    · rw [hcat1 raceLbl4 m14 hm14, hcat2 raceLbl4 m24 hm24]
    · rw [hcat1 raceLbl5 m15 hm15, hcat2 raceLbl5 m25 hm25]
  constructor
  · obtain ⟨r0, hr0, hr0c, hr0s⟩ := hpair
    obtain ⟨m1, hm1⟩ := optChoices_exists_mem (raceMatches (demoFiltered src) raceLbl1 r0)
    obtain ⟨m2, hm2⟩ := optChoices_exists_mem (raceMatches (demoFiltered src) raceLbl2 r0)
    obtain ⟨m3, hm3⟩ := optChoices_exists_mem (raceMatches (demoFiltered src) raceLbl3 r0)
    obtain ⟨m4, hm4⟩ := optChoices_exists_mem (raceMatches (demoFiltered src) raceLbl4 r0)
    obtain ⟨m5, hm5⟩ := optChoices_exists_mem (raceMatches (demoFiltered src) raceLbl5 r0)
    have ho0 : mkPivotRow r0 m1 m2 m3 m4 m5 ∈ demoPivot src :=
      mem_demoPivot_iff.mpr ⟨r0, hr0, m1, hm1, m2, hm2, m3, hm3, m4, hm4, m5, hm5, rfl⟩
    have hne : ((demoPivot src).filter fun o =>
        decide (o.city = some c ∧ o.state = some s)) ≠ [] := by
      intro hnil
      have hmem : mkPivotRow r0 m1 m2 m3 m4 m5 ∈ (demoPivot src).filter fun o =>
          decide (o.city = some c ∧ o.state = some s) := by
        rw [List.mem_filter]
        refine ⟨ho0, ?_⟩
        apply decide_eq_true
        exact ⟨hr0c, hr0s⟩
      rw [hnil] at hmem
      exact absurd hmem (List.not_mem_nil _)
    have hnd : ((demoPivot src).filter fun o =>
        decide (o.city = some c ∧ o.state = some s)).Nodup := by
      apply List.Nodup.filter
      unfold demoPivot
      exact List.nodup_dedup _
    apply nodupAllEqLength hnd hne
    intro x hx y hy
    rw [List.mem_filter] at hx hy
    have hxp := of_decide_eq_true hx.2
    have hyp := of_decide_eq_true hy.2
    exact heqrows x hx.1 y hy.1 hxp.1 hxp.2 hyp.1 hyp.2
  · intro o ho hoc hos
    obtain ⟨cr, hcr, m1, hm1, m2, hm2, m3, hm3, m4, hm4, m5, hm5, hoe⟩ :=
      mem_demoPivot_iff.mp ho
    rw [hoe] at hoc hos
    have hc5 := hcat cr hcr hoc hos
    rw [hoe]
    exact ⟨hc5 raceLbl1 m1 hm1, hc5 raceLbl2 m2 hm2, hc5 raceLbl3 m3 hm3,
      hc5 raceLbl4 m4 hm4, hc5 raceLbl5 m5 hm5⟩

/-- Witness for the amended C2: the spec's CHICAGO example — rows
(CHICAGO, IL, Asian, 500) and (CHICAGO, IL, White, 1000) agreeing on the
non-category columns pivot into exactly one row, with asian = 500 and
white = 1000 recoverable as the pair's category counts. -/
theorem spec_C2_witness :
    (∃ r ∈ demoFiltered c2Good, r.city = some "CHICAGO" ∧ r.state = some "ILLINOIS")
      ∧ catCount c2Good "CHICAGO" "ILLINOIS" raceLbl2 = some 500
      ∧ catCount c2Good "CHICAGO" "ILLINOIS" raceLbl3 = some 1000
      ∧ ((demoPivot c2Good).filter fun o =>
          decide (o.city = some "CHICAGO" ∧ o.state = some "ILLINOIS")).length = 1 :=
  ⟨by decide, by decide, by decide,
    (spec_C2 c2Good "CHICAGO" "ILLINOIS" (by decide) (by decide)).1⟩
